import Mathlib

/-!
Verification development for the DreamRight generation orchestrator core:
the dependency validator, continuity context builder, asset idempotency
gate and generation orchestrator, shallowly embedded from the Python
sources (`dreamright/services/chapter.py`, `dreamright/services/character.py`,
`dreamright_services/panel.py`, `dreamright/generators/chapter.py`).
-/

namespace DreamRight

/-! ## Entity graph data model

Embedded from the fields the services actually read.  The enum value sets
are modelled from the value comments in `dreamright/generators/chapter.py`
(the `models` module itself is not part of the sources at hand). -/

/-- Modelled from the spec: time-of-day enum; values per the source comment
`morning, day, evening, night` in `SceneResponse`. -/
inductive TimeOfDay
  | morning | day | evening | night
deriving DecidableEq, Repr

/-- Modelled from the spec: shot type enum; values per the source comment
`wide, medium, close_up, extreme_close_up` in `PanelResponse`. -/
inductive ShotType
  | wide | medium | close_up | extreme_close_up
deriving DecidableEq, Repr

/-- Modelled from the spec: camera angle enum; values per the source comment
`eye_level, high, low, dutch` in `PanelResponse`. -/
inductive CameraAngle
  | eye_level | high | low | dutch
deriving DecidableEq, Repr

/-- Modelled from the spec: dialogue type enum; values per the source comment
`speech, thought, narration` in `DialogueResponse`. -/
inductive DialogueType
  | speech | thought | narration
deriving DecidableEq, Repr

/-- Chapter status; the orchestrator moves Outlined → Completed. -/
inductive ChapterStatus
  | outlined | completed
deriving DecidableEq, Repr

structure Dialogue where
  character_id : Option String
  text : String
  type : DialogueType
deriving DecidableEq, Repr

structure PanelCharacter where
  character_id : String
  expression : String
  position : String
deriving DecidableEq, Repr

structure PanelComposition where
  shot_type : ShotType
  angle : CameraAngle
deriving DecidableEq, Repr

structure Panel where
  number : Nat
  composition : PanelComposition
  characters : List PanelCharacter
  action : String
  dialogue : List Dialogue
  sfx : List String
  continues_from_previous : Bool
  continuity_note : String
  image_path : Option String
deriving DecidableEq, Repr

structure Scene where
  number : Nat
  location_id : Option String
  time_of_day : TimeOfDay
  mood : String
  description : String
  character_ids : List String
  panels : List Panel
  continues_from_previous_chapter : Bool
deriving DecidableEq, Repr

structure Chapter where
  number : Nat
  id : String
  title : String
  summary : String
  status : ChapterStatus
  scenes : List Scene
deriving DecidableEq, Repr

structure CharacterAssets where
  portrait : Option String
  three_view_sheet : Option String
  reference_input : Option String
deriving DecidableEq, Repr

structure Character where
  id : String
  name : String
  role : String := "supporting"
  personality : String := ""
  assets : CharacterAssets
deriving DecidableEq, Repr

structure LocationAssets where
  reference : Option String
deriving DecidableEq, Repr

structure Location where
  id : String
  name : String
  description : String
  assets : LocationAssets
deriving DecidableEq, Repr

structure StoryBeat where
  beat : String
  description : String
deriving DecidableEq, Repr

structure Story where
  title : String
  logline : String
  story_beats : List StoryBeat
deriving DecidableEq, Repr

structure Project where
  story : Option Story
  characters : List Character
  locations : List Location
  chapters : List Chapter
deriving DecidableEq, Repr

/-- Modelled from the spec: the project manager / storage collaborator
(`dreamright_storage`, absent from the sources at hand).  It holds the
in-memory project, the asset root, and the set of files existing on disk,
modelled as the list of absolute paths; `get_absolute_asset_path` prefixes
the asset root and existence is membership in `disk`. -/
structure Manager where
  project : Project
  assetRoot : String
  disk : List String
deriving DecidableEq, Repr

/-- `storage.get_absolute_asset_path(rel)`. -/
def Manager.absPath (m : Manager) (rel : String) : String :=
  m.assetRoot ++ rel

/-- `path.exists()` for an absolute path. -/
def Manager.fileExists (m : Manager) (abs : String) : Bool :=
  m.disk.contains abs

/-- A structured missing-precondition record, as built by the dependency
validators (`dict` literals in the Python sources); absent keys are `none`. -/
structure MissingDependency where
  type : String
  message : String
  resolution : String
  chapter_number : Option Nat := none
  scene_number : Option Nat := none
  character_id : Option String := none
  character_name : Option String := none
  location_id : Option String := none
  location_name : Option String := none
deriving DecidableEq, Repr

/-! ## ChapterService: dependency validation (`services/chapter.py`) -/

namespace ChapterService

/-- `ChapterService.validate_dependencies`: for beat N > 1, a
`previous_chapter` dependency is emitted when no persisted chapter has
number N−1. -/
def validate_dependencies (proj : Project) (beat_number : Nat) : List MissingDependency :=
  if beat_number > 1 then
    if (proj.chapters.map Chapter.number).contains (beat_number - 1) then
      []
    else
      [{ type := "previous_chapter"
         chapter_number := some (beat_number - 1)
         message := s!"Chapter {beat_number - 1} must be generated first"
         resolution := s!"Generate chapter {beat_number - 1} first for story continuity" }]
  else
    []

end ChapterService

namespace PanelService

/-- `PanelService.get_chapter`: first chapter with the number; the Python
`NotFoundError` is modelled as `none`. -/
def get_chapter (proj : Project) (chapter_number : Nat) : Option Chapter :=
  proj.chapters.find? (fun ch => ch.number == chapter_number)

/-- `PanelService.get_scene`: scene lookup inside a chapter. -/
def get_scene (proj : Project) (chapter_number scene_number : Nat) : Option Scene :=
  (get_chapter proj chapter_number).bind
    (fun ch => ch.scenes.find? (fun s => s.number == scene_number))

/-- One step of Python `set.add`, modelled as a first-encounter-order
deduplicating insert. -/
def insertOnce (l : List String) (x : String) : List String :=
  if l.contains x then l else l ++ [x]

/-- All character ids referenced from panels of the scenes in scope, in
nested iteration order (duplicates kept). -/
def allCharIds (scenes : List Scene) : List String :=
  scenes.flatMap (fun s =>
    s.panels.flatMap (fun p => p.characters.map PanelCharacter.character_id))

/-- All location ids referenced from the scenes in scope (Python truthiness:
an absent or empty `location_id` contributes nothing). -/
def allLocIds (scenes : List Scene) : List String :=
  scenes.flatMap (fun s =>
    match s.location_id with
    | none => []
    | some l => if l == "" then [] else [l])

/-- `required_char_ids`: the referenced character ids deduplicated by id. -/
def collectCharIds (scenes : List Scene) : List String :=
  (allCharIds scenes).foldl insertOnce []

/-- `required_loc_ids`: the referenced location ids deduplicated by id. -/
def collectLocIds (scenes : List Scene) : List String :=
  (allLocIds scenes).foldl insertOnce []

/-- `characters_dict = {c.id: c}`: Python dict comprehension keeps the last
entry on key collision, hence the lookup over the reversed list. -/
def charDictGet (chars : List Character) (cid : String) : Option Character :=
  chars.reverse.find? (fun c => c.id == cid)

/-- `locations_dict = {l.id: l}` lookup, last entry wins. -/
def locDictGet (locs : List Location) (lid : String) : Option Location :=
  locs.reverse.find? (fun l => l.id == lid)

/-- Whether a character's portrait is present: path recorded (non-empty,
Python truthiness) and the file exists on disk. -/
def portraitPresent (m : Manager) (c : Character) : Bool :=
  match c.assets.portrait with
  | none => false
  | some p => if p == "" then false else m.fileExists (m.absPath p)

/-- Whether a location's reference asset is present. -/
def referencePresent (m : Manager) (l : Location) : Bool :=
  match l.assets.reference with
  | none => false
  | some p => if p == "" then false else m.fileExists (m.absPath p)

/-- Per-character check of the `for char_id in required_char_ids` loop body. -/
def checkCharacter (m : Manager) (cid : String) : List MissingDependency :=
  match charDictGet m.project.characters cid with
  | none =>
    [{ type := "character", character_id := some cid
       message := s!"Character {cid} not found in project"
       resolution := "Check character IDs in scene" }]
  | some char =>
    match char.assets.portrait with
    | none =>
      [{ type := "character_asset", character_id := some cid
         character_name := some char.name
         message := ("No portrait asset for " ++ char.name)
         resolution := ("Generate portrait asset for character " ++ char.name) }]
    | some p =>
      if p == "" then
        [{ type := "character_asset", character_id := some cid
           character_name := some char.name
           message := ("No portrait asset for " ++ char.name)
           resolution := ("Generate portrait asset for character " ++ char.name) }]
      else if m.fileExists (m.absPath p) then
        []
      else
        [{ type := "character_asset", character_id := some cid
           character_name := some char.name
           message := ("Portrait file missing for " ++ char.name)
           resolution := ("Regenerate portrait asset for character " ++ char.name) }]

/-- Per-location check of the `for loc_id in required_loc_ids` loop body. -/
def checkLocation (m : Manager) (lid : String) : List MissingDependency :=
  match locDictGet m.project.locations lid with
  | none =>
    [{ type := "location", location_id := some lid
       message := s!"Location {lid} not found in project"
       resolution := "Check location IDs in scene" }]
  | some loc =>
    match loc.assets.reference with
    | none =>
      [{ type := "location_asset", location_id := some lid
         location_name := some loc.name
         message := ("No reference asset for " ++ loc.name)
         resolution := ("Generate reference asset for location " ++ loc.name) }]
    | some p =>
      if p == "" then
        [{ type := "location_asset", location_id := some lid
           location_name := some loc.name
           message := ("No reference asset for " ++ loc.name)
           resolution := ("Generate reference asset for location " ++ loc.name) }]
      else if m.fileExists (m.absPath p) then
        []
      else
        [{ type := "location_asset", location_id := some lid
           location_name := some loc.name
           message := ("Reference file missing for " ++ loc.name)
           resolution := ("Regenerate reference asset for location " ++ loc.name) }]

/-- The part of `PanelService.validate_dependencies` after scope resolution:
previous-chapter check, then character asset checks, then location asset
checks, in source order. -/
def validateScoped (m : Manager) (chapter_number : Nat) (scenes : List Scene) :
    List MissingDependency :=
  (if chapter_number > 1 then
    match get_chapter m.project (chapter_number - 1) with
    | some _ => []
    | none =>
      [{ type := "previous_chapter", chapter_number := some (chapter_number - 1)
         message := s!"Chapter {chapter_number - 1} must be generated first"
         resolution := s!"Generate chapter {chapter_number - 1} first" }]
  else [])
  ++ (collectCharIds scenes).flatMap (checkCharacter m)
  ++ (collectLocIds scenes).flatMap (checkLocation m)

/-- `PanelService.validate_dependencies` with its early returns for a missing
chapter, an empty scene list, and an unresolved requested scene. -/
def validate_dependencies (m : Manager) (chapter_number : Nat)
    (scene_number : Option Nat := none) : List MissingDependency :=
  match get_chapter m.project chapter_number with
  | none =>
    [{ type := "chapter", chapter_number := some chapter_number
       message := s!"Chapter {chapter_number} not found"
       resolution := s!"Generate chapter {chapter_number} first" }]
  | some chapter =>
    if chapter.scenes.isEmpty then
      [{ type := "scenes", chapter_number := some chapter_number
         message := s!"Chapter {chapter_number} has no scenes"
         resolution := "Regenerate chapter" }]
    else
      match scene_number with
      | some sn =>
        match get_scene m.project chapter_number sn with
        | none =>
          [{ type := "scene", scene_number := some sn
             message := s!"Scene {sn} not found in Chapter {chapter_number}"
             resolution := "Check scene number" }]
        | some sc => validateScoped m chapter_number [sc]
      | none => validateScoped m chapter_number chapter.scenes

end PanelService

/-! ### Deduplication lemmas for C3 -/

/-- The predicate "is a `character_asset` dependency entry for this id". -/
def isCharAssetFor (cid : String) (d : MissingDependency) : Bool :=
  d.type == "character_asset" && d.character_id == some cid

/-- Concrete chapter value used by witnesses below. -/
def sampleChapter (n : Nat) : Chapter :=
  { number := n, id := s!"ch-{n}", title := s!"Title {n}"
    summary := s!"Summary {n}", status := .completed, scenes := [] }

/-- A project holding only chapter 1, used by witnesses. -/
def projCh1 : Project :=
  { story := some { title := "S", logline := "L"
                    story_beats := [⟨"b1", "d1"⟩, ⟨"b2", "d2"⟩, ⟨"b3", "d3"⟩] }
    characters := [], locations := [], chapters := [sampleChapter 1] }

def pcAlice : PanelCharacter :=
  { character_id := "alice", expression := "neutral", position := "left" }

def panelWithAlice (n : Nat) : Panel :=
  { number := n, composition := { shot_type := .medium, angle := .eye_level }
    characters := [pcAlice], action := "act", dialogue := [], sfx := []
    continues_from_previous := false, continuity_note := "", image_path := none }

def sceneC3a : Scene :=
  { number := 1, location_id := none, time_of_day := .day, mood := ""
    description := "", character_ids := ["alice"]
    panels := [panelWithAlice 1, panelWithAlice 2, panelWithAlice 3]
    continues_from_previous_chapter := false }

def sceneC3b : Scene :=
  { sceneC3a with number := 2, panels := [panelWithAlice 1, panelWithAlice 2] }

def chC3 : Chapter :=
  { number := 1, id := "c1", title := "T", summary := "S"
    status := .completed, scenes := [sceneC3a, sceneC3b] }

def aliceC3 : Character :=
  { id := "alice", name := "Alice"
    assets := { portrait := none, three_view_sheet := none, reference_input := none } }

def mC3 : Manager :=
  { project := { story := none, characters := [aliceC3], locations := []
                 chapters := [chC3] }
    assetRoot := "", disk := [] }

namespace ChapterGenerator

/-- `ChapterGenerator._chapter_headline`: one line per prior chapter. -/
def chapter_headline (ch : Chapter) : String :=
  let n := ch.number
  let t := ch.title
  let su := ch.summary
  s!"Chapter {n}: {t} - {su}"

/-- One dialogue excerpt line in the detail tier, with the source's
60-character truncation. -/
def dialogueLine (d : Dialogue) : String :=
  if d.text.length > 60 then "  - \"" ++ d.text.take 60 ++ "...\""
  else "  - \"" ++ d.text ++ "\""

/-- `ChapterGenerator._chapter_detailed`: title and summary, then per scene
the (truncated) description when non-empty plus the first dialogue line of
each of the scene's first two panels. -/
def chapter_detailed (ch : Chapter) : String :=
  let n := ch.number
  let t := ch.title
  let su := ch.summary
  let sceneLines := ch.scenes.flatMap (fun s =>
    (if s.description == "" then []
     else
       let d100 := s.description.take 100
       [s!"- Scene: {d100}..."])
    ++ (s.panels.take 2).flatMap (fun p => (p.dialogue.take 1).map dialogueLine))
  String.intercalate "\n" ([s!"Chapter {n}: {t}", s!"Summary: {su}"] ++ sceneLines)

/-- The headline tier: `[self._chapter_headline(ch) for ch in previous_chapters]`. -/
def headlines (previous_chapters : List Chapter) : List String :=
  previous_chapters.map chapter_headline

/-- The detail tier: `for prev_ch in previous_chapters[-2:]`. -/
def recentDetailed (previous_chapters : List Chapter) : List String :=
  (previous_chapters.drop (previous_chapters.length - 2)).map chapter_detailed

/-- The `prev_context` block of `build_chapter_prompt`: empty when there are
no prior chapters, otherwise all headlines followed by the last-2 details. -/
def prevContext (previous_chapters : List Chapter) : String :=
  if previous_chapters.isEmpty then ""
  else
    "\nSTORY SO FAR (all previous chapters):\n" ++
    String.intercalate "\n" (headlines previous_chapters) ++
    "\n\nRECENT CHAPTER DETAILS (for voice and continuity):\n" ++
    String.intercalate "\n" (recentDetailed previous_chapters) ++
    "\n\nIMPORTANT: Continue the story naturally from where the previous chapter left off.\n" ++
    "Maintain character voice, ongoing plot threads, and emotional arcs.\n" ++
    "Reference events from earlier chapters where relevant.\n"

/-- `ChapterGenerator.build_chapter_prompt`: the full prompt string built
once, before any generation attempt. -/
def build_chapter_prompt (story : Story) (beat : StoryBeat) (chapter_number : Nat)
    (characters : List Character) (locations : List Location)
    (previous_chapters : List Chapter) (panels_per_scene : Nat) : String :=
  let char_info := String.intercalate "\n"
    (characters.map (fun c => "- " ++ c.name ++ " (" ++ c.role ++ "): " ++ c.personality))
  let loc_info := String.intercalate "\n"
    (locations.map (fun l => "- " ++ l.name ++ ": " ++ l.description))
  let n := chapter_number
  let pps := panels_per_scene
  "Create a detailed webtoon chapter for the following:\n\n" ++
  "STORY: " ++ story.title ++ "\n" ++
  story.logline ++ "\n" ++
  prevContext previous_chapters ++ "\n" ++
  s!"CHAPTER {n}: " ++ beat.beat ++ "\n" ++
  beat.description ++ "\n\n" ++
  "AVAILABLE CHARACTERS:\n" ++ char_info ++ "\n\n" ++
  "AVAILABLE LOCATIONS:\n" ++ loc_info ++ "\n\n" ++
  s!"Generate 2-3 scenes with {pps} panels each that bring this story beat to life.\n" ++
  "Include specific dialogue, expressions, and visual directions.\n" ++
  "Make sure to use the available characters and locations appropriately.\n"

end ChapterGenerator

/-- The service exception taxonomy (`services/exceptions.py` is not among
the sources at hand; modelled from the spec error taxonomy in §7). -/
inductive SvcError
  | validationError (msg : String)
  | notFoundError (entity ident : String)
  | assetExistsError (kind name path : String)
deriving DecidableEq, Repr

namespace ChapterService

/-- `ChapterService.validate_beat_number`: range validation, a caller input
error distinct from a missing dependency. -/
def validate_beat_number (proj : Project) (beat_number : Nat) :
    Except SvcError StoryBeat :=
  match proj.story with
  | none => .error (.validationError "No story expanded yet")
  | some story =>
    if story.story_beats.isEmpty then
      .error (.validationError "No story beats found")
    else if beat_number < 1 ∨ beat_number > story.story_beats.length then
      .error (.validationError
        ("Invalid beat number. Must be 1-" ++ toString story.story_beats.length))
    else
      match story.story_beats.get? (beat_number - 1) with
      | some b => .ok b
      | none =>
        -- unreachable: the range check guarantees the index is in bounds
        .error (.validationError
          ("Invalid beat number. Must be 1-" ++ toString story.story_beats.length))

/-- `sorted(self.manager.project.chapters, key=lambda c: c.number)`. -/
def sortChaptersByNumber (l : List Chapter) : List Chapter :=
  l.mergeSort (fun a b => decide (a.number ≤ b.number))

/-- The `for i, c in enumerate(...)` search-and-replace loop of
`_save_chapter`, as structural recursion: replace the first chapter with the
same number, or report `none` when there is none. -/
def replaceByNumber : List Chapter → Chapter → Option (List Chapter)
  | [], _ => none
  | c :: rest, chapter =>
    if c.number == chapter.number then some (chapter :: rest)
    else (replaceByNumber rest chapter).map (c :: ·)

/-- `ChapterService._save_chapter`: replace in place when a chapter with the
same number exists, otherwise append and re-sort by number. -/
def save_chapter (proj : Project) (chapter : Chapter) : Project :=
  match replaceByNumber proj.chapters chapter with
  | some updated => { proj with chapters := updated }
  | none =>
    { proj with chapters := sortChaptersByNumber (proj.chapters ++ [chapter]) }

/-- The interactive hooks supplied by the caller; `none` is non-interactive
mode (auto-accept).  `on_result_ready` may depend on the generated chapter,
the beat number and, as the deterministic stand-in for a stateful human,
the attempt index. -/
structure Hooks where
  on_prompt_ready : Option (String → Nat → StoryBeat → Bool)
  on_result_ready : Option (Chapter → Nat → Nat → Bool × Bool)

/-- The external structured-generation collaborator: the chapter produced
for a beat at a given attempt index. -/
structure Oracle where
  gen : Nat → Nat → Chapter

/-- `max_retries` of the interactive retry loop. -/
def max_retries : Nat := 3

/-- Outcome of one `generate_chapter` call; exceptions are values. -/
inductive GenOutcome
  | validationError (e : SvcError)
  | dependencyError (missing : List MissingDependency)
  | skipped
  | completed (c : Chapter)
deriving DecidableEq, Repr

/-- Result of one `generate_chapter` call: the outcome, the prompts of the
generation calls actually issued (in order), and the project state after
the call. -/
structure GenRun where
  outcome : GenOutcome
  genCalls : List String
  project : Project
deriving DecidableEq, Repr

/-- The `for attempt in range(max_retries)` loop: generate, consult
`on_result_ready`, accept / retry (only while `attempt < max_retries - 1`)
/ reject.  The fuel argument equals `max_retries - attempt` and never
reaches 0 before the loop exits. -/
def attemptLoop (hooks : Hooks) (oracle : Oracle) (prompt : String)
    (beat_number : Nat) : Nat → Nat → Option Chapter × List String
  | 0, _ => (none, [])
  | fuel + 1, attempt =>
    let chapter := oracle.gen beat_number attempt
    match hooks.on_result_ready with
    | none => (some chapter, [prompt])
    | some f =>
      let ar := f chapter beat_number attempt
      if ar.1 then (some chapter, [prompt])
      else if ar.2 && decide (attempt < max_retries - 1) then
        let rec2 := attemptLoop hooks oracle prompt beat_number fuel (attempt + 1)
        (rec2.1, prompt :: rec2.2)
      else (none, [prompt])

/-- `ChapterService.generate_chapter`: validate beat number, validate
dependencies (fail fast), build the prompt once, optional prompt
confirmation, bounded interactive generate/confirm loop, then mark
Completed and persist. -/
def generate_chapter (m : Manager) (hooks : Hooks) (oracle : Oracle)
    (beat_number : Nat) (panels_per_scene : Nat := 6) : GenRun :=
  match m.project.story with
  | none =>
    { outcome := .validationError (.validationError "No story expanded yet")
      genCalls := [], project := m.project }
  | some story =>
    match validate_beat_number m.project beat_number with
    | .error e =>
      { outcome := .validationError e, genCalls := [], project := m.project }
    | .ok beat =>
      let missing := validate_dependencies m.project beat_number
      if missing.isEmpty then
        let existing_chapters := sortChaptersByNumber m.project.chapters
        let prompt := ChapterGenerator.build_chapter_prompt story beat beat_number
          m.project.characters m.project.locations existing_chapters panels_per_scene
        let proceed := match hooks.on_prompt_ready with
          | none => true
          | some f => f prompt beat_number beat
        if proceed then
          match attemptLoop hooks oracle prompt beat_number max_retries 0 with
          | (none, calls) =>
            { outcome := .skipped, genCalls := calls, project := m.project }
          | (some chapter, calls) =>
            let completed := { chapter with status := ChapterStatus.completed }
            { outcome := .completed completed, genCalls := calls
              project := save_chapter m.project completed }
        else
          { outcome := .skipped, genCalls := [], project := m.project }
      else
        { outcome := .dependencyError missing, genCalls := [], project := m.project }

/-- `ChapterService.get_remaining_beats` (beat numbers only). -/
def get_remaining_beats (proj : Project) : List Nat :=
  match proj.story with
  | none => []
  | some story =>
    (List.range story.story_beats.length).filterMap (fun i =>
      if (proj.chapters.map Chapter.number).contains (i + 1) then none
      else some (i + 1))

/-- Result of one batch `generate_chapters` call.  `aborted` records the
beat at which an exception propagated out of the loop (`none` when the loop
ran to completion); `trace` records, in order, the outcome of every beat
the loop actually attempted. -/
structure BatchRun where
  aborted : Option (Nat × GenOutcome)
  generated : List Chapter
  trace : List (Nat × GenOutcome)
  project : Project
deriving DecidableEq, Repr

/-- The body of the `for beat_number in beat_numbers` loop of
`generate_chapters`: a `None` chapter (skip) moves on to the next beat, a
raised exception aborts the batch. -/
def batchLoop (m : Manager) (hooks : Hooks) (oracle : Oracle)
    (panels_per_scene : Nat) :
    List Nat → Project → List Chapter → List (Nat × GenOutcome) → BatchRun
  | [], proj, acc, tr =>
    { aborted := none, generated := acc.reverse, trace := tr.reverse, project := proj }
  | b :: rest, proj, acc, tr =>
    let r := generate_chapter { m with project := proj } hooks oracle b panels_per_scene
    match r.outcome with
    | .completed c =>
      batchLoop m hooks oracle panels_per_scene rest r.project (c :: acc)
        ((b, .completed c) :: tr)
    | .skipped =>
      batchLoop m hooks oracle panels_per_scene rest r.project acc ((b, .skipped) :: tr)
    | o =>
      { aborted := some (b, o), generated := acc.reverse
        trace := ((b, o) :: tr).reverse, project := r.project }

/-- `ChapterService.generate_chapters`: explicit beat list or all remaining
beats, strictly in the given order, one at a time. -/
def generate_chapters (m : Manager) (hooks : Hooks) (oracle : Oracle)
    (beat_numbers : Option (List Nat)) (panels_per_scene : Nat := 6) : BatchRun :=
  let beats := match beat_numbers with
    | some l => l
    | none => get_remaining_beats m.project
  batchLoop m hooks oracle panels_per_scene beats m.project [] []

end ChapterService

/-! ### Retry-loop lemmas for C5 -/

/-- The story used by the concrete batch scenarios: three beats. -/
def storyB3 : Story :=
  { title := "S", logline := "L"
    story_beats := [⟨"b1", "d1"⟩, ⟨"b2", "d2"⟩, ⟨"b3", "d3"⟩] }

/-- Manager over `projCh1` (chapter 1 persisted, beats 1..3). -/
def mCh1 : Manager :=
  { project := projCh1, assetRoot := "", disk := [] }

/-- Result hook rejecting beat 2 with no retry and accepting anything else. -/
def hooksC2 : ChapterService.Hooks :=
  { on_prompt_ready := none
    on_result_ready := some (fun _ b _ => if b == 2 then (false, false) else (true, false)) }

/-- Result hook rejecting every result with no retry. -/
def hooksRej : ChapterService.Hooks :=
  { on_prompt_ready := none
    on_result_ready := some (fun _ _ _ => (false, false)) }

/-- A deterministic stand-in for the generation collaborator. -/
def oracleS : ChapterService.Oracle :=
  { gen := fun b _ => sampleChapter b }

namespace PanelService

/-- Arguments of one call to the external panel generator. -/
structure PanelGenCall where
  chapter_number : Nat
  scene_number : Option Nat
  style : String
  overwrite : Bool
  prev_ref : Option String
deriving DecidableEq, Repr

/-- Aggregate counts returned by the external panel generator. -/
structure PanelRunCounts where
  generated_count : Nat
  skipped_count : Nat
  error_count : Nat
deriving DecidableEq, Repr

/-- The external panel-generation collaborator. -/
structure PanelOracle where
  run : PanelGenCall → PanelRunCounts

/-- Outcome of one `generate_panels` call; the `DependencyError` is a value. -/
inductive PanelsOutcome
  | dependencyError (missing : List MissingDependency)
  | ok (chapter_number : Nat) (scene_number : Option Nat)
      (generated skipped errors : Nat)
deriving DecidableEq, Repr

/-- Result of one `generate_panels` call with the generator invocations. -/
structure PanelsRun where
  outcome : PanelsOutcome
  calls : List PanelGenCall
  project : Project
deriving DecidableEq, Repr

/-- The cross-chapter continuity resolution in the full-chapter branch of
`generate_panels`: previous chapter's last scene's last panel image, only
when recorded (Python truthiness) and existing on disk. -/
def prevChapterLastPanel (m : Manager) (chapter_number : Nat) : Option String :=
  if chapter_number > 1 then
    match get_chapter m.project (chapter_number - 1) with
    | none => none
    | some prev =>
      match prev.scenes.getLast? with
      | none => none
      | some last_scene =>
        match last_scene.panels.getLast? with
        | none => none
        | some last_panel =>
          match last_panel.image_path with
          | none => none
          | some rel =>
            if rel == "" then none
            else if m.fileExists (m.absPath rel) then some (m.absPath rel)
            else none
  else none

/-- `PanelService.generate_panels`: validate dependencies (fail fast), then
one generator call — scene-scoped without a cross-chapter reference, or
chapter-scoped with the `prevChapterLastPanel` reference. -/
def generate_panels (m : Manager) (oracle : PanelOracle) (chapter_number : Nat)
    (scene_number : Option Nat) (style : String := "webtoon")
    (overwrite : Bool := false) : PanelsRun :=
  let missing := validate_dependencies m chapter_number scene_number
  if missing.isEmpty then
    match scene_number with
    | some sn =>
      let call : PanelGenCall :=
        { chapter_number := chapter_number, scene_number := some sn
          style := style, overwrite := overwrite, prev_ref := none }
      let counts := oracle.run call
      { outcome := .ok chapter_number (some sn) counts.generated_count
          counts.skipped_count counts.error_count
        calls := [call], project := m.project }
    | none =>
      let call : PanelGenCall :=
        { chapter_number := chapter_number, scene_number := none
          style := style, overwrite := overwrite
          prev_ref := prevChapterLastPanel m chapter_number }
      let counts := oracle.run call
      { outcome := .ok chapter_number none counts.generated_count
          counts.skipped_count counts.error_count
        calls := [call], project := m.project }
  else
    { outcome := .dependencyError missing, calls := [], project := m.project }

end PanelService

/-- A panel with a recorded image. -/
def panelImg : Panel :=
  { number := 1, composition := { shot_type := .medium, angle := .eye_level }
    characters := [], action := "", dialogue := [], sfx := []
    continues_from_previous := false, continuity_note := ""
    image_path := some "img1.png" }

/-- A panel without any recorded image. -/
def panelNoImg : Panel :=
  { panelImg with number := 1, image_path := none }

def sceneImg : Scene :=
  { number := 1, location_id := none, time_of_day := .day, mood := ""
    description := "", character_ids := [], panels := [panelImg]
    continues_from_previous_chapter := false }

def sceneNoAssets : Scene :=
  { sceneImg with panels := [panelNoImg] }

def ch1Img : Chapter :=
  { number := 1, id := "c1", title := "T1", summary := "S1"
    status := .completed, scenes := [sceneImg] }

def ch2NoAssets : Chapter :=
  { number := 2, id := "c2", title := "T2", summary := "S2"
    status := .completed, scenes := [sceneNoAssets] }

/-- Manager whose chapter 1 ends in a persisted, on-disk panel image. -/
def mC8 : Manager :=
  { project := { story := none, characters := [], locations := []
                 chapters := [ch1Img, ch2NoAssets] }
    assetRoot := "/r/", disk := ["/r/img1.png"] }

/-- A trivial external panel generator. -/
def oracleP : PanelService.PanelOracle :=
  { run := fun _ => { generated_count := 0, skipped_count := 0, error_count := 0 } }

namespace CharacterService

/-- Modelled from the spec: character lookup by id over the entity graph
(`project.get_character_by_id`; the `models` module is not among the
sources).  First match by id. -/
def get_character (proj : Project) (character_id : String) : Option Character :=
  proj.characters.find? (fun c => c.id == character_id)

/-- The portrait presence test of `check_asset_exists`: the recorded path
when it is recorded (Python truthiness) and the file exists on disk. -/
def portraitExisting (m : Manager) (char : Character) : Option String :=
  match char.assets.portrait with
  | none => none
  | some p =>
    if p == "" then none
    else if m.fileExists (m.absPath p) then some p
    else none

/-- `CharacterService.check_asset_exists`; a missing character is a
`NotFoundError`. -/
def check_asset_exists (m : Manager) (character_id : String) :
    Except SvcError (Option String) :=
  match get_character m.project character_id with
  | none => .error (.notFoundError "Character" character_id)
  | some char => .ok (portraitExisting m char)

/-- Modelled from the spec: `slugify` from the missing storage package. -/
def slugify (s : String) : String := s.toLower

/-- One result row of the asset-generation operations. -/
inductive AssetEntry
  | generated (character_id : String) (path : String) (style : String)
  | skippedEntry (character_id : String) (reason : String) (path : String)
deriving DecidableEq, Repr

/-- The character id a result row is about. -/
def AssetEntry.cid : AssetEntry → String
  | .generated c _ _ => c
  | .skippedEntry c _ _ => c

/-- The `char.assets.portrait = path` graph mutation (by character id). -/
def setPortrait (proj : Project) (cid path : String) : Project :=
  { proj with characters := proj.characters.map (fun c =>
      if c.id == cid then
        { c with assets := { c.assets with portrait := some path } }
      else c) }

/-- `CharacterService.generate_asset`: raise `AssetExistsError` when the
asset is present and `overwrite` is off; otherwise invoke the generation
collaborator (recorded in the returned call list), write the file
(`save_asset` appends it to the disk), record the path in the graph and
persist. -/
def generate_asset (m : Manager) (character_id : String) (style : String)
    (overwrite : Bool) : Except SvcError AssetEntry × Manager × List String :=
  match get_character m.project character_id with
  | none => (.error (.notFoundError "Character" character_id), m, [])
  | some char =>
    let existing := if overwrite then none
      else match check_asset_exists m character_id with
        | .ok e => e
        | .error _ => none
    match existing with
    | some path => (.error (.assetExistsError "character" char.name path), m, [])
    | none =>
      let char_folder := "characters/" ++ slugify char.name
      let path := char_folder ++ "/portrait.png"
      let m2 : Manager := { m with
        disk := m.disk ++ [m.absPath path]
        project := setPortrait m.project char.id path }
      (.ok (.generated char.id path style), m2, [character_id])

/-- The `for char in self.manager.project.characters` loop of
`generate_all_assets` over the character ids, with the per-item
skip-if-exists gate; an exception from `generate_asset` aborts the batch. -/
def allLoop (style : String) (overwrite : Bool) :
    List String → Manager →
    Except SvcError (List AssetEntry) × Manager × List String
  | [], mgr => (.ok [], mgr, [])
  | cid :: rest, mgr =>
    match check_asset_exists mgr cid with
    | .error e => (.error e, mgr, [])
    | .ok existing =>
      match existing, overwrite with
      | some path, false =>
        let r := allLoop style overwrite rest mgr
        (r.1.map (fun es => .skippedEntry cid "asset_exists" path :: es), r.2.1, r.2.2)
      | _, _ =>
        match generate_asset mgr cid style overwrite with
        | (.error e, m2, cs) => (.error e, m2, cs)
        | (.ok e, m2, cs) =>
          let r := allLoop style overwrite rest m2
          (r.1.map (fun es => e :: es), r.2.1, cs ++ r.2.2)

/-- `CharacterService.generate_all_assets`. -/
def generate_all_assets (m : Manager) (style : String) (overwrite : Bool) :
    Except SvcError (List AssetEntry) × Manager × List String :=
  allLoop style overwrite (m.project.characters.map Character.id) m

end CharacterService

/-! ### Lemmas for C6 -/

def aliceC6 : Character :=
  { id := "al", name := "Alice"
    assets := { portrait := some "alice.png", three_view_sheet := none
                reference_input := none } }

def bobC6 : Character :=
  { id := "bob", name := "Bob"
    assets := { portrait := none, three_view_sheet := none
                reference_input := none } }

/-- Manager where Alice's portrait exists on disk and Bob has none. -/
def mC6 : Manager :=
  { project := { story := none, characters := [aliceC6, bobC6], locations := []
                 chapters := [] }
    assetRoot := "/a/", disk := ["/a/alice.png"] }

/-- Modelled from the spec: Python `str.lower()` (character-wise ASCII
lowering; `String.toLower` itself does not reduce in the kernel). -/
def strLower (s : String) : String :=
  String.mk (s.data.map Char.toLower)

namespace ChapterGenerator

/-- `TimeOfDay(scene_resp.time_of_day.lower())` with the `DAY` fallback. -/
def parse_time_of_day (s : String) : TimeOfDay :=
  match strLower s with
  | "morning" => .morning
  | "day" => .day
  | "evening" => .evening
  | "night" => .night
  | _ => .day

/-- `ShotType(panel_resp.shot_type.lower())` with the `MEDIUM` fallback. -/
def parse_shot_type (s : String) : ShotType :=
  match strLower s with
  | "wide" => .wide
  | "medium" => .medium
  | "close_up" => .close_up
  | "extreme_close_up" => .extreme_close_up
  | _ => .medium

/-- `CameraAngle(panel_resp.angle.lower())` with the `EYE_LEVEL` fallback. -/
def parse_camera_angle (s : String) : CameraAngle :=
  match strLower s with
  | "eye_level" => .eye_level
  | "high" => .high
  | "low" => .low
  | "dutch" => .dutch
  | _ => .eye_level

/-- `DialogueType(dial_resp.type.lower())` with the `SPEECH` fallback. -/
def parse_dialogue_type (s : String) : DialogueType :=
  match strLower s with
  | "speech" => .speech
  | "thought" => .thought
  | "narration" => .narration
  | _ => .speech

end ChapterGenerator

/-! ## Theorems -/

/-- Bridge: boolean `contains` over the mapped chapter numbers coincides
with the existence of a persisted chapter carrying that number. -/
theorem contains_map_number (l : List Chapter) (n : Nat) :
    ((l.map Chapter.number).contains n = true) ↔ ∃ c ∈ l, c.number = n := by
  rw [List.contains_iff_exists_mem_beq]
  constructor
  · rintro ⟨b, hb, hbeq⟩
    rcases List.mem_map.mp hb with ⟨c, hc, hcn⟩
    have hnb : n = b := by simpa using hbeq
    exact ⟨c, hc, by rw [hcn, hnb]⟩
  · rintro ⟨c, hc, hcn⟩
    exact ⟨n, List.mem_map.mpr ⟨c, hc, hcn⟩, by simp⟩

/-- C1: For every beat number N > 1, the chapter dependency validator returns
a list containing a `previous_chapter` entry whose chapter_number is N−1 if
and only if no persisted chapter in the project has number N−1; for N = 1,
and for any N > 1 where chapter N−1 is persisted, it returns the empty list. -/
theorem chapter_validate_dependencies_previous_chapter (proj : Project) (N : Nat) :
    (N > 1 →
      ((∃ d ∈ ChapterService.validate_dependencies proj N,
          d.type = "previous_chapter" ∧ d.chapter_number = some (N - 1)) ↔
        ¬ ∃ c ∈ proj.chapters, c.number = N - 1)) ∧
    (N = 1 → ChapterService.validate_dependencies proj N = []) ∧
    (N > 1 → (∃ c ∈ proj.chapters, c.number = N - 1) →
      ChapterService.validate_dependencies proj N = []) := by
  refine ⟨?_, ?_, ?_⟩
  · intro hN
    unfold ChapterService.validate_dependencies
    rw [if_pos hN]
    by_cases h : ∃ c ∈ proj.chapters, c.number = N - 1
    · rw [if_pos ((contains_map_number _ _).mpr h)]
      simp [h]
    · rw [if_neg (fun hc => h ((contains_map_number _ _).mp hc))]
      constructor
      · intro _
        exact h
      · intro _
        exact ⟨_, List.mem_singleton.mpr rfl, rfl, rfl⟩
  · intro h1
    subst h1
    unfold ChapterService.validate_dependencies
    simp
  · intro hN hex
    unfold ChapterService.validate_dependencies
    rw [if_pos hN, if_pos ((contains_map_number _ _).mpr hex)]

/-! ## PanelService: dependency validation (`dreamright_services/panel.py`)

String messages are reproduced from the source with ASCII single quotes
around interpolated names elided. -/

/-- Boolean `contains` coincides with membership for strings. -/
theorem contains_eq_true_iff (l : List String) (x : String) :
    l.contains x = true ↔ x ∈ l := by
  rw [List.contains_iff_exists_mem_beq]
  constructor
  · rintro ⟨b, hb, hbeq⟩
    have hxb : x = b := by simpa using hbeq
    exact hxb ▸ hb
  · intro h
    exact ⟨x, h, by simp⟩

theorem insertOnce_nodup (l : List String) (x : String) (h : l.Nodup) :
    (PanelService.insertOnce l x).Nodup := by
  unfold PanelService.insertOnce
  split
  · exact h
  · rename_i hc
    have hx : x ∉ l := fun hm => hc ((contains_eq_true_iff l x).mpr hm)
    simp [List.nodup_append, h, hx]

theorem mem_insertOnce (l : List String) (x y : String) :
    y ∈ PanelService.insertOnce l x ↔ y ∈ l ∨ y = x := by
  unfold PanelService.insertOnce
  split
  · rename_i hc
    constructor
    · exact Or.inl
    · rintro (h | rfl)
      · exact h
      · exact (contains_eq_true_iff l y).mp hc
  · simp [List.mem_append]

theorem foldl_insertOnce_nodup (xs : List String) :
    ∀ acc : List String, acc.Nodup → (xs.foldl PanelService.insertOnce acc).Nodup := by
  induction xs with
  | nil => intro acc h; exact h
  | cons a xs ih => intro acc h; exact ih _ (insertOnce_nodup acc a h)

theorem mem_foldl_insertOnce (xs : List String) :
    ∀ (acc : List String) (y : String),
      y ∈ xs.foldl PanelService.insertOnce acc ↔ y ∈ acc ∨ y ∈ xs := by
  induction xs with
  | nil => intro acc y; simp
  | cons a xs ih =>
    intro acc y
    rw [List.foldl_cons, ih, mem_insertOnce]
    constructor
    · rintro ((h | rfl) | h)
      · exact Or.inl h
      · exact Or.inr (List.mem_cons_self _ _)
      · exact Or.inr (List.mem_cons_of_mem _ h)
    · rintro (h | h)
      · exact Or.inl (Or.inl h)
      · rcases List.mem_cons.mp h with rfl | h2
        · exact Or.inl (Or.inr rfl)
        · exact Or.inr h2

theorem checkCharacter_character_id (m : Manager) (id : String) (d : MissingDependency)
    (h : d ∈ PanelService.checkCharacter m id) : d.character_id = some id := by
  unfold PanelService.checkCharacter at h
  split at h
  · simp at h; subst h; rfl
  · split at h
    · simp at h; subst h; rfl
    · split at h
      · simp at h; subst h; rfl
      · split at h
        · simp at h
        · simp at h; subst h; rfl

theorem countP_checkCharacter_other (m : Manager) (cid id : String) (h : id ≠ cid) :
    (PanelService.checkCharacter m id).countP (isCharAssetFor cid) = 0 := by
  rw [List.countP_eq_zero]
  intro d hd
  have hid := checkCharacter_character_id m id d hd
  unfold isCharAssetFor
  intro hp
  simp only [Bool.and_eq_true] at hp
  have h2 : (d.character_id == some cid) = true := hp.2
  rw [hid] at h2
  exact h (by simpa using h2)

theorem countP_checkCharacter_self (m : Manager) (cid : String) (c : Character)
    (hc : PanelService.charDictGet m.project.characters cid = some c) :
    (PanelService.checkCharacter m cid).countP (isCharAssetFor cid) =
      (if PanelService.portraitPresent m c then 0 else 1) := by
  unfold PanelService.checkCharacter PanelService.portraitPresent
  rw [hc]
  rcases hp : c.assets.portrait with _ | p
  · simp [hp, isCharAssetFor]
  · by_cases hpe : p = ""
    · simp [hp, hpe, isCharAssetFor]
    · by_cases hex : m.fileExists (m.absPath p)
      · simp [hp, hpe, hex, isCharAssetFor]
      · simp [hp, hpe, hex, isCharAssetFor]

theorem countP_checkLocation_zero (m : Manager) (cid lid : String) :
    (PanelService.checkLocation m lid).countP (isCharAssetFor cid) = 0 := by
  rw [List.countP_eq_zero]
  intro d hd
  unfold PanelService.checkLocation at hd
  unfold isCharAssetFor
  split at hd
  · simp at hd; subst hd; simp
  · split at hd
    · simp at hd; subst hd; simp
    · split at hd
      · simp at hd; subst hd; simp
      · split at hd
        · simp at hd
        · simp at hd; subst hd; simp

theorem countP_flatMap_single (p : MissingDependency → Bool)
    (f : String → List MissingDependency) :
    ∀ (ids : List String) (cid : String), ids.Nodup → cid ∈ ids →
      (∀ id ∈ ids, id ≠ cid → (f id).countP p = 0) →
      (ids.flatMap f).countP p = (f cid).countP p := by
  intro ids
  induction ids with
  | nil =>
    intro cid _ hmem _
    cases hmem
  | cons a ids ih =>
    intro cid hnd hmem hother
    rw [List.flatMap_cons, List.countP_append]
    rcases List.mem_cons.mp hmem with heq | hmem2
    · subst heq
      have hz : (ids.flatMap f).countP p = 0 := by
        rw [List.countP_eq_zero]
        intro d hd
        rcases List.mem_flatMap.mp hd with ⟨id, hid, hdid⟩
        have hne : id ≠ cid := by
          rintro rfl
          exact (List.nodup_cons.mp hnd).1 hid
        have hcz := hother id (List.mem_cons_of_mem _ hid) hne
        exact (List.countP_eq_zero.mp hcz) d hdid
      rw [hz]
      omega
    · have hne : a ≠ cid := by
        rintro rfl
        exact (List.nodup_cons.mp hnd).1 hmem2
      rw [hother a (List.mem_cons_self a ids) hne,
          ih cid (List.nodup_cons.mp hnd).2 hmem2
            (fun id hid hne2 => hother id (List.mem_cons_of_mem _ hid) hne2)]
      omega

theorem countP_prevPart_zero (m : Manager) (cid : String) (N : Nat) :
    (if N > 1 then
      match PanelService.get_chapter m.project (N - 1) with
      | some _ => ([] : List MissingDependency)
      | none =>
        [{ type := "previous_chapter", chapter_number := some (N - 1)
           message := s!"Chapter {N - 1} must be generated first"
           resolution := s!"Generate chapter {N - 1} first" }]
    else []).countP (isCharAssetFor cid) = 0 := by
  split
  · split
    · rfl
    · simp [isCharAssetFor]
  · rfl

/-- C3: over the scenes in scope, required character and location ids are
collected exactly once (deduplicated by id), and a referenced, resolvable
character contributes exactly one `character_asset` entry precisely when its
portrait is not present (path recorded and file exists), no matter how many
panels across how many scenes reference it. -/
theorem panel_validate_dependencies_character_asset_dedup
    (m : Manager) (N : Nat) (ch : Chapter) (cid : String) (c : Character)
    (hch : PanelService.get_chapter m.project N = some ch)
    (hsc : ch.scenes.isEmpty = false)
    (href : cid ∈ PanelService.allCharIds ch.scenes)
    (hc : PanelService.charDictGet m.project.characters cid = some c) :
    (PanelService.collectCharIds ch.scenes).Nodup ∧
    (PanelService.collectLocIds ch.scenes).Nodup ∧
    cid ∈ PanelService.collectCharIds ch.scenes ∧
    (PanelService.validate_dependencies m N none).countP (isCharAssetFor cid) =
      (if PanelService.portraitPresent m c then 0 else 1) := by
  refine ⟨foldl_insertOnce_nodup _ _ List.nodup_nil,
          foldl_insertOnce_nodup _ _ List.nodup_nil, ?_, ?_⟩
  · exact (mem_foldl_insertOnce _ _ _).mpr (Or.inr href)
  · unfold PanelService.validate_dependencies
    rw [hch]
    simp only [hsc, Bool.false_eq_true, if_false]
    unfold PanelService.validateScoped
    rw [List.countP_append, List.countP_append]
    have h1 := countP_prevPart_zero m cid N
    have h2 : ((PanelService.collectCharIds ch.scenes).flatMap
        (PanelService.checkCharacter m)).countP (isCharAssetFor cid) =
        (if PanelService.portraitPresent m c then 0 else 1) := by
      rw [countP_flatMap_single (isCharAssetFor cid) (PanelService.checkCharacter m)
        (PanelService.collectCharIds ch.scenes) cid
        (foldl_insertOnce_nodup _ _ List.nodup_nil)
        ((mem_foldl_insertOnce _ _ _).mpr (Or.inr href))
        (fun id _ hne => countP_checkCharacter_other m cid id hne)]
      exact countP_checkCharacter_self m cid c hc
    have h3 : ((PanelService.collectLocIds ch.scenes).flatMap
        (PanelService.checkLocation m)).countP (isCharAssetFor cid) = 0 := by
      rw [List.countP_eq_zero]
      intro d hd
      rcases List.mem_flatMap.mp hd with ⟨lid, _, hdl⟩
      exact (List.countP_eq_zero.mp (countP_checkLocation_zero m cid lid)) d hdl
    rw [h1, h2, h3]
    omega

/-- Witness for C1 at N = 3 on a project holding only chapter 1: the
validator emits the `previous_chapter` entry naming chapter 2. -/
theorem chapter_validate_dependencies_previous_chapter_witness :
    ∃ d ∈ ChapterService.validate_dependencies projCh1 3,
      d.type = "previous_chapter" ∧ d.chapter_number = some 2 :=
  ((chapter_validate_dependencies_previous_chapter projCh1 3).1 (by decide)).mpr
    (by decide)

/-! ### Concrete scenario for C3: one character referenced from 5 panels
across 2 scenes, with no portrait asset. -/

/-- Witness for C3: on the 2-scene, 5-panel scenario the validator yields
exactly one `character_asset` entry for the portrait-less character. -/
theorem panel_validate_dependencies_character_asset_dedup_witness :
    (PanelService.validate_dependencies mC3 1 none).countP (isCharAssetFor "alice") = 1 := by
  have h := panel_validate_dependencies_character_asset_dedup mC3 1 chC3 "alice" aliceC3
    (by decide) (by decide) (by decide) (by decide)
  simpa using h.2.2.2

/-! ## ChapterGenerator: continuity context builder (`generators/chapter.py`) -/

/-- C7: for every non-empty list of prior chapters the prompt context holds
exactly one headline per prior chapter, in order, and detail-tier excerpts
for exactly the last 2 prior chapters (all of them when fewer than 2):
entry j of the detail tier is the detail of the chapter at position
`length − 2 + j`, so no chapter earlier than the last 2 contributes
detail-tier content. -/
theorem chapter_prompt_two_tier_context (prev : List Chapter) (hne : prev ≠ []) :
    (ChapterGenerator.headlines prev).length = prev.length ∧
    (∀ i : Fin prev.length,
      (ChapterGenerator.headlines prev).get
        (Fin.cast (by simp [ChapterGenerator.headlines]) i) =
        ChapterGenerator.chapter_headline (prev.get i)) ∧
    (ChapterGenerator.recentDetailed prev).length = min 2 prev.length ∧
    (∀ j : Fin (ChapterGenerator.recentDetailed prev).length,
      (ChapterGenerator.recentDetailed prev).get j =
        ChapterGenerator.chapter_detailed
          (prev.get ⟨prev.length - 2 + j.val, by
            have hj := j.isLt
            simp only [ChapterGenerator.recentDetailed, List.length_map,
              List.length_drop] at hj
            omega⟩)) ∧
    ChapterGenerator.prevContext prev ≠ "" := by
  refine ⟨by simp [ChapterGenerator.headlines], ?_, ?_, ?_, ?_⟩
  · intro i
    simp [ChapterGenerator.headlines]
  · simp only [ChapterGenerator.recentDetailed, List.length_map, List.length_drop]
    omega
  · intro j
    have hj := j.isLt
    simp only [ChapterGenerator.recentDetailed, List.length_map,
      List.length_drop] at hj
    simp only [ChapterGenerator.recentDetailed]
    rw [List.get_map]
    congr 1
    rw [List.get_drop]
  · unfold ChapterGenerator.prevContext
    rw [if_neg (by simpa using hne)]
    intro hcontra
    have : ("" : String).length = 0 := rfl
    rw [← hcontra] at this
    simp only [String.length_append, Nat.add_eq_zero] at this
    exact absurd this.1.1.1.1.1.1 (by decide)

/-- Witness for C7 on a three-chapter history: 3 headline lines and
min 2 3 = 2 detail excerpts. -/
theorem chapter_prompt_two_tier_context_witness :
    (ChapterGenerator.headlines
      [sampleChapter 1, sampleChapter 2, sampleChapter 3]).length = 3 ∧
    (ChapterGenerator.recentDetailed
      [sampleChapter 1, sampleChapter 2, sampleChapter 3]).length = min 2 3 := by
  have h := chapter_prompt_two_tier_context
    [sampleChapter 1, sampleChapter 2, sampleChapter 3] (by simp)
  exact ⟨by simpa using h.1, by simpa using h.2.2.1⟩

/-! ## Generation orchestrator for chapters (`services/chapter.py`)

External collaborators (the structured-generation client and the interactive
confirmation hooks) are modelled as explicit oracles; everything else is the
source's control flow.  Exceptions are modelled as values. -/

theorem attemptLoop_calls (hooks : ChapterService.Hooks) (oracle : ChapterService.Oracle)
    (prompt : String) (b : Nat) :
    ∀ fuel attempt,
      (ChapterService.attemptLoop hooks oracle prompt b fuel attempt).2.length ≤ fuel ∧
      ∀ p ∈ (ChapterService.attemptLoop hooks oracle prompt b fuel attempt).2,
        p = prompt := by
  intro fuel
  induction fuel with
  | zero =>
    intro attempt
    simp [ChapterService.attemptLoop]
  | succ fuel ih =>
    intro attempt
    rw [ChapterService.attemptLoop]
    cases hr : hooks.on_result_ready with
    | none =>
      constructor
      · simp
      · intro p hp
        simpa using hp
    | some f =>
      simp only []
      by_cases h1 : (f (oracle.gen b attempt) b attempt).1
      · simp only [h1, if_true]
        constructor
        · simp
        · intro p hp
          simpa using hp
      · by_cases h2 : (f (oracle.gen b attempt) b attempt).2 &&
            decide (attempt < ChapterService.max_retries - 1)
        · simp only [h1, h2, if_false, if_true, Bool.false_eq_true]
          have hrec := ih (attempt + 1)
          constructor
          · simpa using Nat.succ_le_succ hrec.1
          · intro p hp
            rcases List.mem_cons.mp hp with heq | hmem
            · exact heq
            · exact hrec.2 p hmem
        · simp only [h1, h2, if_false, Bool.false_eq_true]
          constructor
          · simp
          · intro p hp
            simpa using hp

theorem attemptLoop_reject (hooks : ChapterService.Hooks) (oracle : ChapterService.Oracle)
    (prompt : String) (b : Nat) (f : Chapter → Nat → Nat → Bool × Bool)
    (hf : hooks.on_result_ready = some f)
    (hrej : ∀ ch a, (f ch b a).1 = false) :
    ∀ fuel attempt,
      (ChapterService.attemptLoop hooks oracle prompt b fuel attempt).1 = none := by
  intro fuel
  induction fuel with
  | zero =>
    intro attempt
    simp [ChapterService.attemptLoop]
  | succ fuel ih =>
    intro attempt
    rw [ChapterService.attemptLoop, hf]
    simp only [hrej (oracle.gen b attempt) attempt, if_false, Bool.false_eq_true]
    by_cases h2 : (f (oracle.gen b attempt) b attempt).2 &&
        decide (attempt < ChapterService.max_retries - 1)
    · simp only [h2, if_true]
      exact ih (attempt + 1)
    · simp only [h2, if_false, Bool.false_eq_true]

/-- C5: in interactive chapter generation with dependencies met, every
generation call is issued with the identical prompt string built once
before the loop, at most `max_retries = 3` generation calls are made, and
when the result callback never accepts (rejection or retry exhaustion) the
operation yields `skipped` — no exception value — with the project state
unchanged (nothing persisted). -/
theorem generate_chapter_retry_bound_same_prompt
    (m : Manager) (hooks : ChapterService.Hooks) (oracle : ChapterService.Oracle)
    (beat_number pps : Nat) (story : Story) (beat : StoryBeat)
    (hstory : m.project.story = some story)
    (hbeat : ChapterService.validate_beat_number m.project beat_number = .ok beat)
    (hdeps : ChapterService.validate_dependencies m.project beat_number = [])
    (hpr : hooks.on_prompt_ready = none) :
    (ChapterService.generate_chapter m hooks oracle beat_number pps).genCalls.length ≤ 3 ∧
    (∀ p ∈ (ChapterService.generate_chapter m hooks oracle beat_number pps).genCalls,
      p = ChapterGenerator.build_chapter_prompt story beat beat_number
        m.project.characters m.project.locations
        (ChapterService.sortChaptersByNumber m.project.chapters) pps) ∧
    (∀ f, hooks.on_result_ready = some f →
      (∀ ch a, (f ch beat_number a).1 = false) →
      (ChapterService.generate_chapter m hooks oracle beat_number pps).outcome =
          ChapterService.GenOutcome.skipped ∧
        (ChapterService.generate_chapter m hooks oracle beat_number pps).project =
          m.project) := by
  unfold ChapterService.generate_chapter
  rw [hstory, hbeat, hdeps]
  simp only [List.isEmpty_nil, if_true, hpr]
  set prompt := ChapterGenerator.build_chapter_prompt story beat beat_number
    m.project.characters m.project.locations
    (ChapterService.sortChaptersByNumber m.project.chapters) pps with hprompt
  have hcalls := attemptLoop_calls hooks oracle prompt beat_number
    ChapterService.max_retries 0
  rcases hloop : ChapterService.attemptLoop hooks oracle prompt beat_number
      ChapterService.max_retries 0 with ⟨res, calls⟩
  rw [hloop] at hcalls
  cases res with
  | none =>
    refine ⟨hcalls.1, hcalls.2, ?_⟩
    intro f hf hrej
    exact ⟨rfl, rfl⟩
  | some chapter =>
    refine ⟨hcalls.1, hcalls.2, ?_⟩
    intro f hf hrej
    have := attemptLoop_reject hooks oracle prompt beat_number f hf hrej
      ChapterService.max_retries 0
    rw [hloop] at this
    exact absurd this (by simp)

/-! ### Persistence invariant lemmas for C10 -/

theorem replaceByNumber_some :
    ∀ (l : List Chapter) (c : Chapter) (l2 : List Chapter),
      ChapterService.replaceByNumber l c = some l2 →
      l2.map Chapter.number = l.map Chapter.number ∧ c ∈ l2 := by
  intro l
  induction l with
  | nil =>
    intro c l2 h
    simp [ChapterService.replaceByNumber] at h
  | cons a l ih =>
    intro c l2 h
    rw [ChapterService.replaceByNumber] at h
    by_cases hn : a.number == c.number
    · rw [if_pos hn] at h
      injection h with h
      subst h
      refine ⟨?_, List.mem_cons_self _ _⟩
      have hca : a.number = c.number := by simpa using hn
      simp [List.map_cons, hca]
    · rw [if_neg hn] at h
      rcases Option.map_eq_some'.mp h with ⟨l3, hl3, rfl⟩
      rcases ih c l3 hl3 with ⟨hmap, hmem⟩
      exact ⟨by simp [hmap], List.mem_cons_of_mem _ hmem⟩

theorem replaceByNumber_none :
    ∀ (l : List Chapter) (c : Chapter),
      ChapterService.replaceByNumber l c = none →
      c.number ∉ l.map Chapter.number := by
  intro l
  induction l with
  | nil =>
    intro c _
    simp
  | cons a l ih =>
    intro c h
    rw [ChapterService.replaceByNumber] at h
    by_cases hn : a.number == c.number
    · rw [if_pos hn] at h
      cases h
    · rw [if_neg hn] at h
      have h2 := Option.map_eq_none'.mp h
      intro hmem
      rcases List.mem_cons.mp hmem with heq | hmem2
      · exact hn (by simp [heq])
      · exact ih c h2 hmem2

theorem sortChaptersByNumber_sorted_of_nodup (l : List Chapter)
    (hnd : (l.map Chapter.number).Nodup) :
    (ChapterService.sortChaptersByNumber l).Pairwise
      (fun a b => a.number < b.number) := by
  have hsorted := @List.sorted_mergeSort Chapter
    (fun a b => decide (a.number ≤ b.number))
    (by
      intro a b c h1 h2
      simp only [decide_eq_true_eq] at h1 h2 ⊢
      omega)
    (by
      intro a b
      simpa using Nat.le_total a.number b.number) l
  have hperm : (l.mergeSort (fun a b => decide (a.number ≤ b.number))).Perm l :=
    List.mergeSort_perm l _
  have hnd2 : ((ChapterService.sortChaptersByNumber l).map Chapter.number).Nodup := by
    unfold ChapterService.sortChaptersByNumber
    exact ((hperm.map Chapter.number).nodup_iff).mpr hnd
  have hne : (ChapterService.sortChaptersByNumber l).Pairwise
      (fun a b => a.number ≠ b.number) := List.pairwise_map.mp hnd2
  have hle : (ChapterService.sortChaptersByNumber l).Pairwise
      (fun a b => a.number ≤ b.number) := by
    unfold ChapterService.sortChaptersByNumber
    exact hsorted.imp (by intro a b h; simpa using h)
  exact (hle.and hne).imp (fun h => lt_of_le_of_ne h.1 h.2)

theorem pairwise_lt_map_nodup (l : List Chapter)
    (h : l.Pairwise (fun a b => a.number < b.number)) :
    (l.map Chapter.number).Nodup :=
  List.pairwise_map.mpr (h.imp (fun hlt => Nat.ne_of_lt hlt))

/-- `generate_chapter` either leaves the project untouched, or persists via
`save_chapter`. -/
theorem generate_chapter_project_cases (m : Manager) (hooks : ChapterService.Hooks)
    (oracle : ChapterService.Oracle) (b pps : Nat) :
    (ChapterService.generate_chapter m hooks oracle b pps).project = m.project ∨
    ∃ ch, (ChapterService.generate_chapter m hooks oracle b pps).project =
      ChapterService.save_chapter m.project ch := by
  unfold ChapterService.generate_chapter
  repeat
    first
    | (left; rfl)
    | (right; exact ⟨_, rfl⟩)
    | split
    | (dsimp only; split)

/-- C10: saving a chapter preserves "at most one chapter per number, sorted
ascending": a same-numbered chapter is replaced in place, otherwise the new
chapter is appended and the list re-sorted; the saved chapter is always
present afterwards, and consequently every `generate_chapter` call keeps
the persisted list duplicate-free and ordered. -/
theorem save_chapter_keeps_sorted_unique (proj : Project) (c : Chapter)
    (h : proj.chapters.Pairwise (fun a b => a.number < b.number)) :
    (ChapterService.save_chapter proj c).chapters.Pairwise
      (fun a b => a.number < b.number) ∧
    c ∈ (ChapterService.save_chapter proj c).chapters ∧
    (∀ (m : Manager) (hooks : ChapterService.Hooks) (oracle : ChapterService.Oracle)
      (b pps : Nat), m.project = proj →
      (ChapterService.generate_chapter m hooks oracle b pps).project.chapters.Pairwise
        (fun a b => a.number < b.number)) := by
  have hmain : ∀ c2 : Chapter,
      (ChapterService.save_chapter proj c2).chapters.Pairwise
        (fun a b => a.number < b.number) ∧
      c2 ∈ (ChapterService.save_chapter proj c2).chapters := by
    intro c2
    unfold ChapterService.save_chapter
    cases hrep : ChapterService.replaceByNumber proj.chapters c2 with
    | some l2 =>
      rcases replaceByNumber_some proj.chapters c2 l2 hrep with ⟨hmap, hmem⟩
      refine ⟨?_, hmem⟩
      have := List.pairwise_map.mp (hmap ▸ List.pairwise_map.mpr h)
      exact this
    | none =>
      have hnotin := replaceByNumber_none proj.chapters c2 hrep
      have hnd : ((proj.chapters ++ [c2]).map Chapter.number).Nodup := by
        rw [List.map_append]
        simp only [List.map_cons, List.map_nil]
        rw [List.nodup_append]
        exact ⟨pairwise_lt_map_nodup proj.chapters h, List.nodup_singleton _,
          by simpa [List.disjoint_singleton] using hnotin⟩
      refine ⟨sortChaptersByNumber_sorted_of_nodup _ hnd, ?_⟩
      unfold ChapterService.sortChaptersByNumber
      exact (List.mergeSort_perm _ _).mem_iff.mpr (by simp)
  refine ⟨(hmain c).1, (hmain c).2, ?_⟩
  intro m hooks oracle b pps hm
  rcases generate_chapter_project_cases m hooks oracle b pps with heq | ⟨ch, heq⟩
  · rw [heq, hm]
    exact h
  · rw [heq, hm]
    exact (hmain ch).1

/-! ### Batch generation: skip of beat 2 cascades into a dependency
failure at beat 3 (C2) -/

/-- Witness for C5: with an always-rejecting result hook, generating beat 2
over `mCh1` is skipped and persists nothing. -/
theorem generate_chapter_retry_bound_same_prompt_witness :
    (ChapterService.generate_chapter mCh1 hooksRej oracleS 2 6).outcome =
        ChapterService.GenOutcome.skipped ∧
      (ChapterService.generate_chapter mCh1 hooksRej oracleS 2 6).project =
        mCh1.project :=
  (generate_chapter_retry_bound_same_prompt mCh1 hooksRej oracleS 2 6
      storyB3 ⟨"b2", "d2"⟩ rfl rfl (by decide) rfl).2.2
    (fun _ _ _ => (false, false)) rfl (fun _ _ => rfl)

/-- Witness for C10: saving chapter 2 into the single-chapter project keeps
the list sorted and duplicate-free and contains the saved chapter. -/
theorem save_chapter_keeps_sorted_unique_witness :
    (ChapterService.save_chapter projCh1 (sampleChapter 2)).chapters.Pairwise
        (fun a b => a.number < b.number) ∧
      sampleChapter 2 ∈ (ChapterService.save_chapter projCh1 (sampleChapter 2)).chapters :=
  ⟨(save_chapter_keeps_sorted_unique projCh1 (sampleChapter 2) (by decide)).1,
   (save_chapter_keeps_sorted_unique projCh1 (sampleChapter 2) (by decide)).2.1⟩

/-- C2 (counterexample): in the batch over beats [2,3] with chapter 1
persisted and the hook rejecting beat 2 only — it would accept beat 3 —
the run aborts at beat 3 with a `DependencyError` naming chapter 2, and no
chapter 3 is ever persisted, contradicting "beat 3 …, if accepted, is
persisted — the batch does not abort". -/
theorem generate_chapters_batch_skip_counterexample :
    ((hooksC2.on_result_ready.map (fun f => f (sampleChapter 3) 3 0)) =
        some (true, false)) ∧
    (ChapterService.generate_chapters mCh1 hooksC2 oracleS (some [2, 3]) 6).aborted =
      some (3, ChapterService.GenOutcome.dependencyError
        (ChapterService.validate_dependencies mCh1.project 3)) ∧
    (ChapterService.generate_chapters mCh1 hooksC2 oracleS (some [2, 3]) 6).trace =
      [(2, ChapterService.GenOutcome.skipped),
       (3, ChapterService.GenOutcome.dependencyError
         (ChapterService.validate_dependencies mCh1.project 3))] ∧
    ¬ ∃ c ∈ (ChapterService.generate_chapters mCh1 hooksC2 oracleS
        (some [2, 3]) 6).project.chapters, c.number = 3 := by
  refine ⟨rfl, ?_, ?_, ?_⟩ <;> decide

/-- C2 (amended): with chapter 1 persisted and beats [2,3] requested, a
reject-without-retry of beat 2 skips beat 2 without an exception and the
loop proceeds to beat 3; but because chapter 2 was never persisted, beat
3's dependency validation fails and the batch aborts with a
`DependencyError` naming chapter 2 — beat 3 is not persisted even though
the hook would accept it, and the project is left unchanged. -/
theorem generate_chapters_skip_cascades_to_dependency_abort
    (m : Manager) (hooks : ChapterService.Hooks) (oracle : ChapterService.Oracle)
    (pps : Nat) (story : Story) (f : Chapter → Nat → Nat → Bool × Bool)
    (hstory : m.project.story = some story)
    (hlen : 3 ≤ story.story_beats.length)
    (hch1 : (m.project.chapters.map Chapter.number).contains 1 = true)
    (hch2 : (m.project.chapters.map Chapter.number).contains 2 = false)
    (hpr : hooks.on_prompt_ready = none)
    (hf : hooks.on_result_ready = some f)
    (hrej2 : ∀ ch a, f ch 2 a = (false, false)) :
    (ChapterService.generate_chapters m hooks oracle (some [2, 3]) pps).trace =
      [(2, ChapterService.GenOutcome.skipped),
       (3, ChapterService.GenOutcome.dependencyError
         (ChapterService.validate_dependencies m.project 3))] ∧
    (ChapterService.generate_chapters m hooks oracle (some [2, 3]) pps).aborted =
      some (3, ChapterService.GenOutcome.dependencyError
        (ChapterService.validate_dependencies m.project 3)) ∧
    (ChapterService.generate_chapters m hooks oracle (some [2, 3]) pps).project =
      m.project ∧
    (ChapterService.generate_chapters m hooks oracle (some [2, 3]) pps).generated = [] := by
  have hbne : story.story_beats.isEmpty = false := by
    cases hsb : story.story_beats with
    | nil => rw [hsb] at hlen; simp at hlen
    | cons a l => rfl
  have hvb2 : ChapterService.validate_beat_number m.project 2 =
      .ok (story.story_beats.get ⟨1, by omega⟩) := by
    unfold ChapterService.validate_beat_number
    rw [hstory]
    dsimp only
    rw [if_neg (by simp [hbne])]
    rw [if_neg (by omega)]
    rw [List.get?_eq_get (show 2 - 1 < story.story_beats.length by omega)]
  have hvb3 : ChapterService.validate_beat_number m.project 3 =
      .ok (story.story_beats.get ⟨2, by omega⟩) := by
    unfold ChapterService.validate_beat_number
    rw [hstory]
    dsimp only
    rw [if_neg (by simp [hbne])]
    rw [if_neg (by omega)]
    rw [List.get?_eq_get (show 3 - 1 < story.story_beats.length by omega)]
  have hdeps2 : ChapterService.validate_dependencies m.project 2 = [] := by
    unfold ChapterService.validate_dependencies
    rw [if_pos (by omega)]
    rw [if_pos (show ((m.project.chapters.map Chapter.number).contains (2 - 1)) = true
      from hch1)]
  have hdeps3ne : (ChapterService.validate_dependencies m.project 3).isEmpty = false := by
    unfold ChapterService.validate_dependencies
    rw [if_pos (by omega)]
    rw [if_neg (show ¬ ((m.project.chapters.map Chapter.number).contains (3 - 1)) = true
      by
        intro hcontra
        have h22 : ((m.project.chapters.map Chapter.number).contains 2) = true := hcontra
        rw [hch2] at h22
        cases h22)]
    rfl
  have hg2 : (ChapterService.generate_chapter m hooks oracle 2 pps).outcome =
        ChapterService.GenOutcome.skipped ∧
      (ChapterService.generate_chapter m hooks oracle 2 pps).project = m.project := by
    unfold ChapterService.generate_chapter
    rw [hstory, hvb2, hdeps2]
    simp only [List.isEmpty_nil, if_true, hpr]
    unfold ChapterService.max_retries
    rw [ChapterService.attemptLoop, hf]
    simp [hrej2]
  have hg3 : (ChapterService.generate_chapter m hooks oracle 3 pps).outcome =
        ChapterService.GenOutcome.dependencyError
          (ChapterService.validate_dependencies m.project 3) ∧
      (ChapterService.generate_chapter m hooks oracle 3 pps).project = m.project := by
    unfold ChapterService.generate_chapter
    rw [hstory, hvb3]
    simp only [hdeps3ne, Bool.false_eq_true, if_false]
    exact ⟨by first | rfl | trivial, by first | rfl | trivial⟩
  have hmupd : ({ m with project := m.project } : Manager) = m := rfl
  unfold ChapterService.generate_chapters
  simp only []
  rw [ChapterService.batchLoop, hmupd]
  rcases hr2 : ChapterService.generate_chapter m hooks oracle 2 pps with ⟨o2, cl2, p2⟩
  rw [hr2] at hg2
  simp only [] at hg2
  rcases hg2 with ⟨ho2, hp2⟩
  subst ho2
  subst hp2
  rw [ChapterService.batchLoop, hmupd]
  rcases hr3 : ChapterService.generate_chapter m hooks oracle 3 pps with ⟨o3, cl3, p3⟩
  rw [hr3] at hg3
  simp only [] at hg3
  rcases hg3 with ⟨ho3, hp3⟩
  subst ho3
  subst hp3
  refine ⟨by simp, by simp, rfl, rfl⟩

/-- Witness for the amended C2 on the concrete scenario: the batch leaves
the project unchanged and generates nothing. -/
theorem generate_chapters_skip_cascades_to_dependency_abort_witness :
    (ChapterService.generate_chapters mCh1 hooksC2 oracleS (some [2, 3]) 6).project =
        mCh1.project ∧
      (ChapterService.generate_chapters mCh1 hooksC2 oracleS (some [2, 3]) 6).generated =
        [] := by
  have h := generate_chapters_skip_cascades_to_dependency_abort mCh1 hooksC2 oracleS 6
    storyB3 (fun _ b _ => if b == 2 then (false, false) else (true, false))
    rfl (by decide) (by decide) (by decide) rfl rfl (fun _ _ => rfl)
  exact ⟨h.2.2.1, h.2.2.2⟩

/-! ## Panel generation orchestrator (`dreamright_services/panel.py`)

The external panel generator (`dreamright_generators.panel`) is a
collaborator: it is modelled as an oracle returning aggregate counts, and
its in-place panel-image mutations happen inside the collaborator, outside
this embedding.  What the embedding tracks is exactly what the claims
need: the dependency gate, the arguments of the generator invocation
(including the cross-chapter continuity reference), and that the project
is untouched on rejection. -/

/-- C8: generating panels for chapter N > 1 passes the previous chapter's
last scene's last panel image to the generation call as the continuity
reference exactly when that panel has a recorded image path and the file
exists on disk; otherwise no cross-chapter reference is passed. -/
theorem generate_panels_cross_chapter_reference
    (m : Manager) (oracle : PanelService.PanelOracle) (N : Nat) (style : String)
    (ow : Bool) (prev : Chapter) (last_scene : Scene) (last_panel : Panel)
    (hN : N > 1)
    (hprev : PanelService.get_chapter m.project (N - 1) = some prev)
    (hls : prev.scenes.getLast? = some last_scene)
    (hlp : last_scene.panels.getLast? = some last_panel)
    (hmiss : (PanelService.validate_dependencies m N none).isEmpty = true) :
    (PanelService.generate_panels m oracle N none style ow).calls =
      [{ chapter_number := N, scene_number := none, style := style, overwrite := ow
         prev_ref := PanelService.prevChapterLastPanel m N }] ∧
    (∀ rel, last_panel.image_path = some rel → rel ≠ "" →
      m.fileExists (m.absPath rel) = true →
      PanelService.prevChapterLastPanel m N = some (m.absPath rel)) ∧
    (∀ rel, last_panel.image_path = some rel →
      (rel = "" ∨ m.fileExists (m.absPath rel) = false) →
      PanelService.prevChapterLastPanel m N = none) ∧
    (last_panel.image_path = none → PanelService.prevChapterLastPanel m N = none) := by
  have hred :
      (match last_panel.image_path with
        | none => none
        | some rel =>
          if rel == "" then none
          else if m.fileExists (m.absPath rel) then some (m.absPath rel)
          else none) =
      PanelService.prevChapterLastPanel m N := by
    unfold PanelService.prevChapterLastPanel
    rw [if_pos hN, hprev]
    dsimp only
    rw [hls]
    dsimp only
    rw [hlp]
  refine ⟨?_, ?_, ?_, ?_⟩
  · unfold PanelService.generate_panels
    simp only [hmiss, if_true]
  · intro rel hrel hne hex
    rw [← hred, hrel]
    dsimp only
    rw [if_neg (by simpa using hne), if_pos hex]
  · intro rel hrel hor
    rw [← hred, hrel]
    dsimp only
    rcases hor with heq | hnex
    · rw [if_pos (by simpa using heq)]
    · by_cases heq : rel == ""
      · rw [if_pos heq]
      · rw [if_neg heq, if_neg (by simp [hnex])]
  · intro hnone
    rw [← hred, hnone]

/-- C4: whenever the dependency validator reached inside a chapter- or
panel-generation request returns a non-empty missing list, the operation
rejects with a `DependencyError` carrying exactly that list, issues no call
to the external generation collaborator, and leaves the project unchanged. -/
theorem dependency_failure_rejects_before_calls_and_mutation (m : Manager) :
    (∀ (hooks : ChapterService.Hooks) (oracle : ChapterService.Oracle)
      (b pps : Nat) (story : Story) (beat : StoryBeat),
      m.project.story = some story →
      ChapterService.validate_beat_number m.project b = .ok beat →
      (ChapterService.validate_dependencies m.project b).isEmpty = false →
      (ChapterService.generate_chapter m hooks oracle b pps).outcome =
          ChapterService.GenOutcome.dependencyError
            (ChapterService.validate_dependencies m.project b) ∧
        (ChapterService.generate_chapter m hooks oracle b pps).genCalls = [] ∧
        (ChapterService.generate_chapter m hooks oracle b pps).project = m.project) ∧
    (∀ (oracle : PanelService.PanelOracle) (N : Nat) (sn : Option Nat)
      (style : String) (ow : Bool),
      (PanelService.validate_dependencies m N sn).isEmpty = false →
      (PanelService.generate_panels m oracle N sn style ow).outcome =
          PanelService.PanelsOutcome.dependencyError
            (PanelService.validate_dependencies m N sn) ∧
        (PanelService.generate_panels m oracle N sn style ow).calls = [] ∧
        (PanelService.generate_panels m oracle N sn style ow).project = m.project) := by
  constructor
  · intro hooks oracle b pps story beat hstory hvb hne
    unfold ChapterService.generate_chapter
    rw [hstory, hvb]
    simp only [hne, Bool.false_eq_true, if_false]
    exact ⟨by first | rfl | trivial, by first | rfl | trivial,
      by first | rfl | trivial⟩
  · intro oracle N sn style ow hne
    unfold PanelService.generate_panels
    simp only [hne, Bool.false_eq_true, if_false]
    exact ⟨by first | rfl | trivial, by first | rfl | trivial,
      by first | rfl | trivial⟩

/-! ### Concrete data for the C8 and C4 witnesses -/

/-- Witness for C8: generating chapter 2's panels passes chapter 1's last
panel image (recorded and on disk) as the continuity reference. -/
theorem generate_panels_cross_chapter_reference_witness :
    (PanelService.generate_panels mC8 oracleP 2 none "webtoon" false).calls =
      [{ chapter_number := 2, scene_number := none, style := "webtoon"
         overwrite := false
         prev_ref := PanelService.prevChapterLastPanel mC8 2 }] ∧
    PanelService.prevChapterLastPanel mC8 2 = some (mC8.absPath "img1.png") := by
  have h := generate_panels_cross_chapter_reference mC8 oracleP 2 "webtoon" false
    ch1Img sceneImg panelImg (by decide) (by decide) (by decide) (by decide) (by decide)
  exact ⟨h.1, h.2.1 "img1.png" rfl (by decide) (by decide)⟩

/-- Witness for C4: beat 3 over the chapter-1-only project is rejected with
no generator call and no state change; likewise a panel request for a
missing chapter. -/
theorem dependency_failure_rejects_before_calls_and_mutation_witness :
    ((ChapterService.generate_chapter mCh1 hooksRej oracleS 3 6).genCalls = [] ∧
      (ChapterService.generate_chapter mCh1 hooksRej oracleS 3 6).project =
        mCh1.project) ∧
    ((PanelService.generate_panels mC3 oracleP 2 none "webtoon" false).calls = [] ∧
      (PanelService.generate_panels mC3 oracleP 2 none "webtoon" false).project =
        mC3.project) := by
  have h := dependency_failure_rejects_before_calls_and_mutation mCh1
  have h1 := h.1 hooksRej oracleS 3 6 storyB3 ⟨"b3", "d3"⟩ rfl rfl (by decide)
  have h2 := (dependency_failure_rejects_before_calls_and_mutation mC3).2
    oracleP 2 none "webtoon" false (by decide)
  exact ⟨⟨h1.2.1, h1.2.2⟩, ⟨h2.2.1, h2.2.2⟩⟩

/-! ## CharacterService: asset idempotency gate (`services/character.py`)

The image-generation collaborator returns opaque bytes that do not affect
control flow; what the embedding records is whether it was invoked (the
call list of character ids) and the `save_asset` effects: the written file
appended to the disk and the recorded portrait path in the graph. -/

theorem find?_id_map_update (l : List Character) (cid path t : String) (h : t ≠ cid) :
    (l.map (fun c => if c.id == cid then
        { c with assets := { c.assets with portrait := some path } } else c)).find?
      (fun c => c.id == t) = l.find? (fun c => c.id == t) := by
  induction l with
  | nil => rfl
  | cons a l ih =>
    rw [List.map_cons]
    by_cases hat : (a.id == t)
    · have hac : (a.id == cid) = false := by
        have h2 : a.id = t := by simpa using hat
        simp [h2, h]
      rw [if_neg (by simp [hac])]
      rw [List.find?_cons_of_pos (p := fun c : Character => c.id == t) _ hat,
        List.find?_cons_of_pos (p := fun c : Character => c.id == t) _ hat]
    · by_cases hac : (a.id == cid)
      · rw [if_pos hac]
        rw [List.find?_cons_of_neg (p := fun c : Character => c.id == t) _ (by simpa using hat),
          List.find?_cons_of_neg (p := fun c : Character => c.id == t) _ (by simpa using hat)]
        exact ih
      · rw [if_neg hac]
        rw [List.find?_cons_of_neg (p := fun c : Character => c.id == t) _ (by simpa using hat),
          List.find?_cons_of_neg (p := fun c : Character => c.id == t) _ (by simpa using hat)]
        exact ih

theorem ids_map_update (l : List Character) (cid path : String) :
    (l.map (fun c => if c.id == cid then
        { c with assets := { c.assets with portrait := some path } } else c)).map
      Character.id = l.map Character.id := by
  induction l with
  | nil => rfl
  | cons a l ih =>
    simp only [List.map_cons]
    by_cases hac : (a.id == cid)
    · rw [if_pos hac]
      simp only [ih]
    · rw [if_neg hac]
      simp only [ih]

theorem get_character_of_mem_ids (proj : Project) (cid : String)
    (h : cid ∈ proj.characters.map Character.id) :
    ∃ char, CharacterService.get_character proj cid = some char ∧ char.id = cid := by
  rcases List.mem_map.mp h with ⟨x, hx, hxid⟩
  have hsome : (proj.characters.find? (fun c => c.id == cid)).isSome := by
    rw [List.find?_isSome]
    exact ⟨x, hx, by simp [hxid]⟩
  rcases Option.isSome_iff_exists.mp hsome with ⟨char, hchar⟩
  refine ⟨char, hchar, ?_⟩
  have := List.find?_some hchar
  simpa using this

theorem generate_asset_effects (mgr : Manager) (cid style : String) (ow : Bool) :
    (CharacterService.generate_asset mgr cid style ow).2.1.assetRoot = mgr.assetRoot ∧
    (∀ x ∈ mgr.disk, x ∈ (CharacterService.generate_asset mgr cid style ow).2.1.disk) ∧
    ((CharacterService.generate_asset mgr cid style ow).2.1.project.characters.map
      Character.id = mgr.project.characters.map Character.id) ∧
    (∀ t, t ≠ cid →
      CharacterService.get_character
        (CharacterService.generate_asset mgr cid style ow).2.1.project t =
        CharacterService.get_character mgr.project t) ∧
    (∀ x ∈ (CharacterService.generate_asset mgr cid style ow).2.2, x = cid) := by
  unfold CharacterService.generate_asset
  cases hchar : CharacterService.get_character mgr.project cid with
  | none =>
    refine ⟨rfl, fun x hx => hx, rfl, fun t _ => rfl, ?_⟩
    intro x hx
    simp at hx
  | some char =>
    have hcharid : char.id = cid := by
      have := List.find?_some hchar
      simpa using this
    dsimp only
    cases hex : (if ow then none else
        match CharacterService.check_asset_exists mgr cid with
        | .ok e => e
        | .error _ => none) with
    | some path =>
      refine ⟨rfl, fun x hx => hx, rfl, fun t _ => rfl, ?_⟩
      intro x hx
      simp at hx
    | none =>
      refine ⟨rfl, ?_, ?_, ?_, ?_⟩
      · intro x hx
        exact List.mem_append_left _ hx
      · exact hcharid ▸ ids_map_update mgr.project.characters char.id _
      · intro t ht
        unfold CharacterService.get_character CharacterService.setPortrait
        exact hcharid ▸ find?_id_map_update mgr.project.characters char.id _ t
          (hcharid ▸ ht)
      · intro x hx
        simpa using hx

theorem portraitExisting_present (mgr : Manager) (c : Character) (p : String)
    (hp : c.assets.portrait = some p) (hpne : p ≠ "")
    (hdisk : mgr.absPath p ∈ mgr.disk) :
    CharacterService.portraitExisting mgr c = some p := by
  unfold CharacterService.portraitExisting
  rw [hp]
  dsimp only
  rw [if_neg (by simpa using hpne)]
  rw [if_pos (show mgr.fileExists (mgr.absPath p) = true from
    (contains_eq_true_iff _ _).mpr hdisk)]

theorem generate_asset_ok_shape (mgr : Manager) (cid style : String) (char : Character)
    (hchar : CharacterService.get_character mgr.project cid = some char)
    (hpe : CharacterService.portraitExisting mgr char = none) :
    ∃ pth, (CharacterService.generate_asset mgr cid style false).1 =
        .ok (.generated cid pth style) ∧
      (CharacterService.generate_asset mgr cid style false).2.2 = [cid] := by
  have hcharid : char.id = cid := by
    have := List.find?_some hchar
    simpa using this
  unfold CharacterService.generate_asset
  rw [hchar]
  dsimp only
  have hchk : CharacterService.check_asset_exists mgr cid =
      .ok (CharacterService.portraitExisting mgr char) := by
    unfold CharacterService.check_asset_exists
    rw [hchar]
  rw [hchk, hpe]
  dsimp only
  refine ⟨"characters/" ++ CharacterService.slugify char.name ++ "/portrait.png", ?_, ?_⟩
  · rw [hcharid]
    rfl
  · rfl

theorem allLoop_run (style : String) (c : Character) (p : String)
    (hp : c.assets.portrait = some p) (hpne : p ≠ "") :
    ∀ (ids : List String) (mgr : Manager),
      (∀ cid ∈ ids, cid ∈ mgr.project.characters.map Character.id) →
      ((∃ es, (CharacterService.allLoop style false ids mgr).1 = .ok es ∧
          es.map CharacterService.AssetEntry.cid = ids) ∧
        (CharacterService.allLoop style false ids mgr).2.1.assetRoot = mgr.assetRoot ∧
        (∀ x ∈ mgr.disk, x ∈ (CharacterService.allLoop style false ids mgr).2.1.disk) ∧
        ((CharacterService.allLoop style false ids mgr).2.1.project.characters.map
            Character.id = mgr.project.characters.map Character.id) ∧
        (CharacterService.get_character mgr.project c.id = some c →
          mgr.absPath p ∈ mgr.disk →
          (CharacterService.get_character
              (CharacterService.allLoop style false ids mgr).2.1.project c.id = some c ∧
            mgr.absPath p ∈ (CharacterService.allLoop style false ids mgr).2.1.disk ∧
            (∀ es, (CharacterService.allLoop style false ids mgr).1 = .ok es →
              c.id ∈ ids →
              es.find? (fun e => e.cid == c.id) =
                some (.skippedEntry c.id "asset_exists" p)) ∧
            c.id ∉ (CharacterService.allLoop style false ids mgr).2.2))) := by
  intro ids
  induction ids with
  | nil =>
    intro mgr _
    refine ⟨⟨[], rfl, rfl⟩, rfl, fun x hx => hx, rfl, ?_⟩
    intro _ hdisk
    refine ⟨by assumption, hdisk, ?_, ?_⟩
    · intro es _ hmem
      cases hmem
    · intro hmem
      cases hmem
  | cons cid rest ih =>
    intro mgr hsub
    obtain ⟨char, hchar, hcharid⟩ := get_character_of_mem_ids _ _
      (hsub cid (List.mem_cons_self _ _))
    have hchk : CharacterService.check_asset_exists mgr cid =
        .ok (CharacterService.portraitExisting mgr char) := by
      unfold CharacterService.check_asset_exists
      rw [hchar]
    rw [CharacterService.allLoop, hchk]
    dsimp only
    rcases hpe : CharacterService.portraitExisting mgr char with _ | path
    · -- portrait absent: generate branch
      dsimp only
      obtain ⟨pth, hok, hcs⟩ := generate_asset_ok_shape mgr cid style char hchar hpe
      have heff := generate_asset_effects mgr cid style false
      rcases hga : CharacterService.generate_asset mgr cid style false with ⟨res, m2, cs⟩
      rw [hga] at hok hcs heff
      dsimp only at hok hcs heff
      subst hok
      subst hcs
      dsimp only
      have hsub2 : ∀ cid2 ∈ rest, cid2 ∈ m2.project.characters.map Character.id := by
        intro cid2 h2
        rw [heff.2.2.1]
        exact hsub cid2 (List.mem_cons_of_mem _ h2)
      obtain ⟨hA, hroot, hdiskmono, hids, hC⟩ := ih m2 hsub2
      refine ⟨?_, ?_, ?_, ?_, ?_⟩
      · obtain ⟨es, hes, hmap⟩ := hA
        exact ⟨.generated cid pth style :: es, by rw [hes]; rfl, by simp [hmap,
          CharacterService.AssetEntry.cid]⟩
      · rw [hroot, heff.1]
      · intro x hx
        exact hdiskmono x (heff.2.1 x hx)
      · rw [hids, heff.2.2.1]
      · intro hgc hdisk
        -- c is untouched by this generate step: c's portrait is present
        -- while the processed character's is absent, so the ids differ
        have hne : c.id ≠ cid := by
          intro heq
          rw [heq, hchar] at hgc
          injection hgc with hgc2
          rw [hgc2] at hpe
          rw [portraitExisting_present mgr c p hp hpne hdisk] at hpe
          exact Option.noConfusion hpe
        have hgc2 : CharacterService.get_character m2.project c.id = some c := by
          rw [heff.2.2.2.1 c.id hne]
          exact hgc
        have habs : m2.absPath p = mgr.absPath p := by
          unfold Manager.absPath
          rw [heff.1]
        have hdisk2 : m2.absPath p ∈ m2.disk := by
          rw [habs]
          exact heff.2.1 _ hdisk
        obtain ⟨hC1, hC2, hC3, hC4⟩ := hC hgc2 hdisk2
        rw [habs] at hC2
        refine ⟨hC1, hC2, ?_, ?_⟩
        · intro es hes hmemc
          obtain ⟨es0, hes0, hmap0⟩ := hA
          rw [hes0] at hes
          simp only [Except.map, Except.ok.injEq] at hes
          rw [← hes]
          rw [List.find?_cons_of_neg (p := fun e : CharacterService.AssetEntry =>
            e.cid == c.id) _ (by
              simp only [CharacterService.AssetEntry.cid, beq_iff_eq]
              exact fun hcontra => hne hcontra.symm)]
          exact hC3 es0 hes0 (by
            rcases List.mem_cons.mp hmemc with heq | hm
            · exact absurd heq hne
            · exact hm)
        · intro hmem
          rcases List.mem_append.mp hmem with hm1 | hm2
          · rcases List.mem_singleton.mp hm1 with heq
            exact hne heq
          · exact hC4 hm2
    · -- portrait present for `cid`: skip branch
      dsimp only
      obtain ⟨hA, hroot, hdiskmono, hids, hC⟩ := ih mgr
        (fun cid2 h2 => hsub cid2 (List.mem_cons_of_mem _ h2))
      refine ⟨?_, hroot, hdiskmono, hids, ?_⟩
      · obtain ⟨es, hes, hmap⟩ := hA
        exact ⟨.skippedEntry cid "asset_exists" path :: es, by rw [hes]; rfl, by
          simp [hmap, CharacterService.AssetEntry.cid]⟩
      · intro hgc hdisk
        obtain ⟨hC1, hC2, hC3, hC4⟩ := hC hgc hdisk
        refine ⟨hC1, hC2, ?_, hC4⟩
        intro es hes hmemc
        obtain ⟨es0, hes0, hmap0⟩ := hA
        rw [hes0] at hes
        -- hes : .ok (row :: es0) = .ok es
        have hesx : CharacterService.AssetEntry.skippedEntry cid "asset_exists" path ::
            es0 = es := by
          injection hes
        by_cases hcc : cid = c.id
        · -- this is c's own row: char = c and path = p
          subst hcc
          rw [hchar] at hgc
          injection hgc with hgc2
          rw [hgc2] at hpe
          rw [portraitExisting_present mgr c p hp hpne hdisk] at hpe
          injection hpe with hpath
          rw [← hesx, ← hpath]
          rw [List.find?_cons_of_pos (p := fun e : CharacterService.AssetEntry =>
            e.cid == c.id) _ (by simp [CharacterService.AssetEntry.cid])]
        · rw [← hesx]
          rw [List.find?_cons_of_neg (p := fun e : CharacterService.AssetEntry =>
            e.cid == c.id) _ (by simp [CharacterService.AssetEntry.cid, hcc])]
          exact hC3 es0 hes0 (by
            rcases List.mem_cons.mp hmemc with heq | hm
            · exact absurd heq.symm hcc
            · exact hm)

theorem allLoop_generates (style : String) :
    ∀ (ids : List String) (mgr : Manager) (c2 : Character),
      CharacterService.get_character mgr.project c2.id = some c2 →
      c2.assets.portrait = none →
      c2.id ∈ ids → ids.Nodup →
      (∀ cid ∈ ids, cid ∈ mgr.project.characters.map Character.id) →
      c2.id ∈ (CharacterService.allLoop style false ids mgr).2.2 := by
  intro ids
  induction ids with
  | nil =>
    intro mgr c2 _ _ hmem
    cases hmem
  | cons cid rest ih =>
    intro mgr c2 hgc hport hmem hnd hsub
    obtain ⟨char, hchar, hcharid⟩ := get_character_of_mem_ids _ _
      (hsub cid (List.mem_cons_self _ _))
    have hchk : CharacterService.check_asset_exists mgr cid =
        .ok (CharacterService.portraitExisting mgr char) := by
      unfold CharacterService.check_asset_exists
      rw [hchar]
    rw [CharacterService.allLoop, hchk]
    dsimp only
    by_cases hcc : cid = c2.id
    · subst hcc
      have hceq : char = c2 := by
        have h2 := hchar
        rw [hgc] at h2
        exact (Option.some.inj h2).symm
      have hpe : CharacterService.portraitExisting mgr char = none := by
        rw [hceq]
        unfold CharacterService.portraitExisting
        rw [hport]
      rw [hpe]
      dsimp only
      obtain ⟨pth, hok, hcs⟩ := generate_asset_ok_shape mgr c2.id style char hchar hpe
      rcases hga : CharacterService.generate_asset mgr c2.id style false with ⟨res, m2, cs⟩
      rw [hga] at hok hcs
      dsimp only at hok hcs
      subst hok
      subst hcs
      dsimp only
      exact List.mem_append_left _ (List.mem_singleton.mpr rfl)
    · have hmem2 : c2.id ∈ rest := by
        rcases List.mem_cons.mp hmem with heq | hm
        · exact absurd heq.symm hcc
        · exact hm
      rcases hpe : CharacterService.portraitExisting mgr char with _ | path
      · dsimp only
        have heff := generate_asset_effects mgr cid style false
        obtain ⟨pth, hok, hcs⟩ := generate_asset_ok_shape mgr cid style char hchar hpe
        rcases hga : CharacterService.generate_asset mgr cid style false with ⟨res, m2, cs⟩
        rw [hga] at hok hcs heff
        dsimp only at hok hcs heff
        subst hok
        subst hcs
        dsimp only
        refine List.mem_append_right _ ?_
        refine ih m2 c2 ?_ hport hmem2 (List.nodup_cons.mp hnd).2 ?_
        · rw [heff.2.2.2.1 c2.id (fun h => hcc h.symm)]
          exact hgc
        · intro cid2 h2
          rw [heff.2.2.1]
          exact hsub cid2 (List.mem_cons_of_mem _ h2)
      · dsimp only
        exact ih mgr c2 hgc hport hmem2 (List.nodup_cons.mp hnd).2
          (fun cid2 h2 => hsub cid2 (List.mem_cons_of_mem _ h2))

/-- C6: given a character whose portrait asset is present — path recorded
and file on disk — and `overwrite = false`, two consecutive runs of the
batch asset-generation gate both produce a `Skipped` row with the identical
recorded path for that character, neither run invokes the generation
collaborator for it, and its skip never prevents a portrait-less character
in the same batch from being generated. -/
theorem generate_all_assets_skip_idempotent
    (m : Manager) (style : String) (c : Character) (p : String)
    (hfind : CharacterService.get_character m.project c.id = some c)
    (hp : c.assets.portrait = some p) (hpne : p ≠ "")
    (hdisk : m.absPath p ∈ m.disk) :
    (∃ es1, (CharacterService.generate_all_assets m style false).1 = .ok es1 ∧
      es1.find? (fun e => e.cid == c.id) =
        some (.skippedEntry c.id "asset_exists" p)) ∧
    c.id ∉ (CharacterService.generate_all_assets m style false).2.2 ∧
    (∃ es2, (CharacterService.generate_all_assets
        (CharacterService.generate_all_assets m style false).2.1 style false).1 =
          .ok es2 ∧
      es2.find? (fun e => e.cid == c.id) =
        some (.skippedEntry c.id "asset_exists" p)) ∧
    c.id ∉ (CharacterService.generate_all_assets
        (CharacterService.generate_all_assets m style false).2.1 style false).2.2 ∧
    (∀ c2 : Character, CharacterService.get_character m.project c2.id = some c2 →
      c2.assets.portrait = none →
      (m.project.characters.map Character.id).Nodup →
      c2.id ∈ (CharacterService.generate_all_assets m style false).2.2) := by
  have hcmem : c.id ∈ m.project.characters.map Character.id :=
    List.mem_map.mpr ⟨c, List.mem_of_find?_eq_some hfind, rfl⟩
  unfold CharacterService.generate_all_assets
  obtain ⟨hA, hroot, hdiskmono, hids, hC⟩ :=
    allLoop_run style c p hp hpne (m.project.characters.map Character.id) m
      (fun _ h => h)
  obtain ⟨hC1, hC2, hC3, hC4⟩ := hC hfind hdisk
  set M1 := (CharacterService.allLoop style false
    (m.project.characters.map Character.id) m).2.1 with hM1
  have habs1 : M1.absPath p = m.absPath p := by
    unfold Manager.absPath
    rw [hroot]
  have hdisk2 : M1.absPath p ∈ M1.disk := by
    rw [habs1]
    exact hC2
  obtain ⟨hA2, hroot2, hdiskmono2, hids2, hC0⟩ :=
    allLoop_run style c p hp hpne (M1.project.characters.map Character.id) M1
      (fun _ h => h)
  obtain ⟨hD1, hD2, hD3, hD4⟩ := hC0 hC1 hdisk2
  have hcmem2 : c.id ∈ M1.project.characters.map Character.id := by
    rw [hids]
    exact hcmem
  refine ⟨?_, hC4, ?_, hD4, ?_⟩
  · obtain ⟨es1, hes1, _⟩ := hA
    exact ⟨es1, hes1, hC3 es1 hes1 hcmem⟩
  · obtain ⟨es2, hes2, _⟩ := hA2
    exact ⟨es2, hes2, hD3 es2 hes2 hcmem2⟩
  · intro c2 hgc2 hport2 hnd
    exact allLoop_generates style (m.project.characters.map Character.id) m c2
      hgc2 hport2
      (List.mem_map.mpr ⟨c2, List.mem_of_find?_eq_some hgc2, rfl⟩) hnd
      (fun _ h => h)

/-! ### Concrete data for the C6 witness -/

/-- Witness for C6: Alice is skipped with her recorded path and never sent
to the generator, while Bob is still generated in the same batch. -/
theorem generate_all_assets_skip_idempotent_witness :
    (∃ es1, (CharacterService.generate_all_assets mC6 "webtoon" false).1 = .ok es1 ∧
      es1.find? (fun e => e.cid == aliceC6.id) =
        some (.skippedEntry aliceC6.id "asset_exists" "alice.png")) ∧
    aliceC6.id ∉ (CharacterService.generate_all_assets mC6 "webtoon" false).2.2 ∧
    bobC6.id ∈ (CharacterService.generate_all_assets mC6 "webtoon" false).2.2 := by
  have h := generate_all_assets_skip_idempotent mC6 "webtoon" aliceC6 "alice.png"
    rfl rfl (by decide) (by decide)
  exact ⟨h.1, h.2.1, h.2.2.2.2 bobC6 rfl rfl (by decide)⟩

/-! ## Enum parsing in `ChapterGenerator._convert_chapter`

The `try: Enum(value.lower()) except ValueError: <default>` blocks of the
response conversion, one per enum-like string field.  The enum value sets
are modelled from the value comments in the response schemas (the `models`
module is not among the sources); the fallback defaults are the source's
`except` branches, making the conversion total on these fields. -/

/-- C9: the response-to-model conversion is total on its enum-like string
fields: every unrecognized (case-normalized) time-of-day maps to DAY,
shot type to MEDIUM, camera angle to EYE_LEVEL and dialogue type to
SPEECH, so conversion never fails on malformed enum values. -/
theorem convert_chapter_enum_fallbacks (s : String) :
    (strLower s ∉ ["morning", "day", "evening", "night"] →
      ChapterGenerator.parse_time_of_day s = TimeOfDay.day) ∧
    (strLower s ∉ ["wide", "medium", "close_up", "extreme_close_up"] →
      ChapterGenerator.parse_shot_type s = ShotType.medium) ∧
    (strLower s ∉ ["eye_level", "high", "low", "dutch"] →
      ChapterGenerator.parse_camera_angle s = CameraAngle.eye_level) ∧
    (strLower s ∉ ["speech", "thought", "narration"] →
      ChapterGenerator.parse_dialogue_type s = DialogueType.speech) := by
  refine ⟨?_, ?_, ?_, ?_⟩
  · intro h
    unfold ChapterGenerator.parse_time_of_day
    split <;> simp_all
  · intro h
    unfold ChapterGenerator.parse_shot_type
    split <;> simp_all
  · intro h
    unfold ChapterGenerator.parse_camera_angle
    split <;> simp_all
  · intro h
    unfold ChapterGenerator.parse_dialogue_type
    split <;> simp_all

/-- Witness for C9 on unrecognized inputs. -/
theorem convert_chapter_enum_fallbacks_witness :
    ChapterGenerator.parse_time_of_day "noon" = TimeOfDay.day ∧
    ChapterGenerator.parse_shot_type "pan" = ShotType.medium ∧
    ChapterGenerator.parse_camera_angle "tilt" = CameraAngle.eye_level ∧
    ChapterGenerator.parse_dialogue_type "yell" = DialogueType.speech :=
  ⟨(convert_chapter_enum_fallbacks "noon").1 (by decide),
   (convert_chapter_enum_fallbacks "pan").2.1 (by decide),
   (convert_chapter_enum_fallbacks "tilt").2.2.1 (by decide),
   (convert_chapter_enum_fallbacks "yell").2.2.2 (by decide)⟩

end DreamRight
